import Mathlib

/-!
# Antigravity: floating bodies with drag, repulsion, wall bounce and collisions

A shallow embedding of `src/antigravity_google/script.js`.

Numbers.  The script computes with JavaScript numbers.  The embedding is
generic in a linearly ordered field `K` and reads every arithmetic operation
as the exact field operation, so the definitions run on `ℚ` and the theorems
hold for `ℝ` as well.  Rounding is not modelled; a division by zero, which
the script turns into `Infinity` or `NaN`, only occurs on inputs that are
excluded by a hypothesis of the theorem concerned.

Library functions.  `Math.sqrt`, `Math.atan2`, `Math.cos` and `Math.sin` are
not part of the script; they are taken as a parameter `Math K`, and a theorem
that depends on what they return says so in a hypothesis.

Randomness.  `Math.random()` is a stream `rnd : Nat → K` of draws together
with the number of draws consumed so far.

The DOM.  `window.innerWidth` and `window.innerHeight` are read from a
`Window`; the measured rectangle of an element is an argument of the
constructor; event payloads are arguments of the handlers.
-/

namespace Antigravity

/-- A pair of coordinates, the object literal with fields `x` and `y`. -/
structure Vec (K : Type) where
  x : K
  y : K
deriving DecidableEq

/-- The viewport size read from the global `window`. -/
structure Window (K : Type) where
  innerWidth : K
  innerHeight : K

/-- The four functions of the JavaScript `Math` object that the script calls. -/
structure Math (K : Type) where
  sqrt : K → K
  atan2 : K → K → K
  cos : K → K
  sin : K → K

/-- The fields of class `PhysicsObject` (the DOM element itself is left out). -/
structure PhysicsObject (K : Type) where
  pos : Vec K
  vel : Vec K
  angle : K
  rotVel : K
  width : K
  height : K
  radius : K
  mass : K
  isDragging : Bool
  dragOffset : Vec K
deriving DecidableEq

/-- The fields of class `AntigravityEngine`, with the count of random draws used. -/
structure AntigravityEngine (K : Type) where
  objects : List (PhysicsObject K)
  mousePos : Vec K
  drawn : Nat

section Code

variable {K : Type} [LinearOrderedField K]

namespace PhysicsObject

/-- The constructor (lines 2-41): `rectWidth`, `rectHeight` are the measured
size, and six draws are taken from `rnd` starting at index `k`. -/
def construct (win : Window K) (rnd : Nat → K) (k : Nat) (rectWidth rectHeight : K) :
    PhysicsObject K × Nat :=
  let startX := (win.innerWidth - rectWidth) * 0.5 + (rnd k - 0.5) * 400
  let startY := (win.innerHeight - rectHeight) * 0.5 + (rnd (k + 1) - 0.5) * 200
  let velX := (rnd (k + 2) - 0.5) * 1.5
  let velY := (rnd (k + 3) - 0.5) * 1.5
  let angle := rnd (k + 4) * 360
  let rotVel := (rnd (k + 5) - 0.5) * 0.5
  let width := rectWidth
  let height := rectHeight
  let aspectRatio := max width height / min width height
  let radius := if aspectRatio > 2 then min width height else max width height / 2
  let mass := width * height * 0.001
  ({ pos := ⟨startX, startY⟩, vel := ⟨velX, velY⟩, angle := angle, rotVel := rotVel,
     width := width, height := height, radius := radius, mass := mass,
     isDragging := false, dragOffset := ⟨0, 0⟩ }, k + 6)

/-- The `mousedown` listener of `initEvents` (lines 44-51); `client` is the
pointer position carried by the event. -/
def mousedown (o : PhysicsObject K) (client : Vec K) : PhysicsObject K :=
  { o with
    isDragging := true
    dragOffset := ⟨client.x - o.pos.x, client.y - o.pos.y⟩
    rotVel := 0
    vel := ⟨0, 0⟩ }

/-- The `mousemove` listener of `initEvents` (lines 53-60); `movement` is the
pointer delta carried by the event. -/
def mousemove (o : PhysicsObject K) (client movement : Vec K) : PhysicsObject K :=
  if o.isDragging then
    { o with
      pos := ⟨client.x - o.dragOffset.x, client.y - o.dragOffset.y⟩
      vel := ⟨movement.x, movement.y⟩ }
  else o

/-- The `mouseup` listener of `initEvents` (lines 62-68); `r` is the draw. -/
def mouseup (o : PhysicsObject K) (r : K) : PhysicsObject K :=
  if o.isDragging then
    { o with isDragging := false, rotVel := (r - 0.5) * 2 }
  else o

/-- Lines 73-75 of `update`: the velocity is added to the position and the
angular velocity to the angle. -/
def integrate (o : PhysicsObject K) : PhysicsObject K :=
  { o with
    pos := ⟨o.pos.x + o.vel.x, o.pos.y + o.vel.y⟩
    angle := o.angle + o.rotVel }

/-- Lines 78-90 of `update`, the block "Mouse Repulsion". -/
def mouseRepulsion (M : Math K) (o : PhysicsObject K) (mousePos : Option (Vec K)) :
    PhysicsObject K :=
  match mousePos with
  | none => o
  | some mousePos =>
    let dx := (o.pos.x + o.width / 2) - mousePos.x
    let dy := (o.pos.y + o.height / 2) - mousePos.y
    let dist := M.sqrt (dx * dx + dy * dy)
    let repulsionRadius : K := 300
    if dist < repulsionRadius then
      let force := (repulsionRadius - dist) / repulsionRadius
      let angle := M.atan2 dy dx
      { o with vel := ⟨o.vel.x + M.cos angle * force * 0.2,
                       o.vel.y + M.sin angle * force * 0.2⟩ }
    else o

/-- Lines 93-94 of `update`, the block "Friction/Damping". -/
def damping (o : PhysicsObject K) : PhysicsObject K :=
  { o with vel := ⟨o.vel.x * 0.99, o.vel.y * 0.99⟩ }

/-- Lines 97-112 of `update`, the block "Wall bouncing": four `if`s in a row,
each reading the position the previous one may have written. -/
def wallBouncing (win : Window K) (o : PhysicsObject K) : PhysicsObject K :=
  let o := if o.pos.x < 0 then
    { o with pos := ⟨0, o.pos.y⟩, vel := ⟨o.vel.x * -1, o.vel.y⟩ } else o
  let o := if o.pos.x + o.width > win.innerWidth then
    { o with pos := ⟨win.innerWidth - o.width, o.pos.y⟩, vel := ⟨o.vel.x * -1, o.vel.y⟩ } else o
  let o := if o.pos.y < 0 then
    { o with pos := ⟨o.pos.x, 0⟩, vel := ⟨o.vel.x, o.vel.y * -1⟩ } else o
  let o := if o.pos.y + o.height > win.innerHeight then
    { o with pos := ⟨o.pos.x, win.innerHeight - o.height⟩, vel := ⟨o.vel.x, o.vel.y * -1⟩ } else o
  o

/-- The method `update` (lines 71-116): nothing happens to a dragged object;
otherwise the four blocks run in the order of the source. -/
def update (M : Math K) (win : Window K) (o : PhysicsObject K) (mousePos : Option (Vec K)) :
    PhysicsObject K :=
  if o.isDragging then o
  else wallBouncing win (damping (mouseRepulsion M (integrate o) mousePos))

/-- The distance `dist` from the centre of `o` to the pointer, as computed at
lines 79-81 of `update`. -/
def pointerDist (M : Math K) (o : PhysicsObject K) (mousePos : Vec K) : K :=
  M.sqrt (((o.pos.x + o.width / 2) - mousePos.x) * ((o.pos.x + o.width / 2) - mousePos.x)
    + ((o.pos.y + o.height / 2) - mousePos.y) * ((o.pos.y + o.height / 2) - mousePos.y))

/-- The pointer is absent, or at distance at least 300 from the centre of `o`
measured after the integration step: the repulsion of `update` does not fire. -/
def pointerFar (M : Math K) (o : PhysicsObject K) (mousePos : Option (Vec K)) : Prop :=
  match mousePos with
  | none => True
  | some p => 300 ≤ pointerDist M (integrate o) p

/-- Consecutive calls of `update`, one for each viewport and pointer in the list. -/
def updates (M : Math K) : List (Window K × Option (Vec K)) → PhysicsObject K → PhysicsObject K
  | [], o => o
  | (win, mousePos) :: rest, o => updates M rest (o.update M win mousePos)

/-- In each of the consecutive calls of `update` the pointer is far (`pointerFar`). -/
def pointerFarAll (M : Math K) : List (Window K × Option (Vec K)) → PhysicsObject K → Prop
  | [], _ => True
  | (win, mousePos) :: rest, o =>
    pointerFar M o mousePos ∧ pointerFarAll M rest (o.update M win mousePos)

/-- The method `render` (lines 118-120): the translation and the rotation
written into the element's transform. -/
def render (o : PhysicsObject K) : K × K × K :=
  (o.pos.x, o.pos.y, o.angle)

end PhysicsObject

namespace AntigravityEngine

/-- The method `resolveCollision` (lines 161-205).  The result is the two
objects after the call and the number of draws consumed. -/
def resolveCollision (rnd : Nat → K) (k : Nat) (obj1 obj2 : PhysicsObject K)
    (dx dy distance : K) : PhysicsObject K × PhysicsObject K × Nat :=
  let nx := dx / distance
  let ny := dy / distance
  let dvx := obj1.vel.x - obj2.vel.x
  let dvy := obj1.vel.y - obj2.vel.y
  let velAlongNormal := dvx * nx + dvy * ny
  if velAlongNormal > 0 then (obj1, obj2, k)
  else
    let e : K := 0.8
    let j := -(1 + e) * velAlongNormal
    let j := j / (1 / obj1.mass + 1 / obj2.mass)
    let impulseX := j * nx
    let impulseY := j * ny
    let a1 := if obj1.isDragging then obj1 else
      { obj1 with
        vel := ⟨obj1.vel.x + (1 / obj1.mass) * impulseX, obj1.vel.y + (1 / obj1.mass) * impulseY⟩
        rotVel := obj1.rotVel + (rnd k - 0.5) * 0.5 }
    let k1 := if obj1.isDragging then k else k + 1
    let a2 := if obj2.isDragging then obj2 else
      { obj2 with
        vel := ⟨obj2.vel.x - (1 / obj2.mass) * impulseX, obj2.vel.y - (1 / obj2.mass) * impulseY⟩
        rotVel := obj2.rotVel + (rnd k1 - 0.5) * 0.5 }
    let k2 := if obj2.isDragging then k1 else k1 + 1
    let overlap := (obj1.radius + obj2.radius) * 0.8 - distance
    if overlap > 0 then
      let correctionX := (overlap / (1 / obj1.mass + 1 / obj2.mass)) * nx * 0.2
      let correctionY := (overlap / (1 / obj1.mass + 1 / obj2.mass)) * ny * 0.2
      let b1 := if a1.isDragging then a1 else
        { a1 with pos := ⟨a1.pos.x + correctionX * (1 / obj1.mass),
                          a1.pos.y + correctionY * (1 / obj1.mass)⟩ }
      let b2 := if a2.isDragging then a2 else
        { a2 with pos := ⟨a2.pos.x - correctionX * (1 / obj2.mass),
                          a2.pos.y - correctionY * (1 / obj2.mass)⟩ }
      (b1, b2, k2)
    else (a1, a2, k2)

/-- The body of the inner loop of `checkCollisions` (lines 146-156) for the
indices `i` and `j`. -/
def collidePair (M : Math K) (rnd : Nat → K) (i j : Nat) (eng : AntigravityEngine K) :
    AntigravityEngine K :=
  match eng.objects[i]?, eng.objects[j]? with
  | some obj1, some obj2 =>
    let dx := (obj1.pos.x + obj1.width / 2) - (obj2.pos.x + obj2.width / 2)
    let dy := (obj1.pos.y + obj1.height / 2) - (obj2.pos.y + obj2.height / 2)
    let distance := M.sqrt (dx * dx + dy * dy)
    let minDistance := (obj1.radius + obj2.radius) * 0.8
    if distance < minDistance then
      let r := resolveCollision rnd eng.drawn obj1 obj2 dx dy distance
      { eng with objects := (eng.objects.set i r.1).set j r.2.1, drawn := r.2.2 }
    else eng
  | _, _ => eng

/-- The method `checkCollisions` (lines 143-159): `i` runs over all indices
and `j` over the indices above `i`. -/
def checkCollisions (M : Math K) (rnd : Nat → K) (eng : AntigravityEngine K) :
    AntigravityEngine K :=
  (List.range eng.objects.length).foldl
    (fun eng i =>
      (List.range' (i + 1) (eng.objects.length - (i + 1))).foldl
        (fun eng j => collidePair M rnd i j eng) eng)
    eng

/-- The `mousemove` listener of `init` (lines 137-140). -/
def mousemove (eng : AntigravityEngine K) (client : Vec K) : AntigravityEngine K :=
  { eng with mousePos := ⟨client.x, client.y⟩ }

/-- One run of the method `animate` (lines 207-211), without the request for
the next frame: the collision pass, then `update` on every object in order. -/
def animate (M : Math K) (rnd : Nat → K) (win : Window K) (eng : AntigravityEngine K) :
    AntigravityEngine K :=
  let eng := checkCollisions M rnd eng
  { eng with objects := eng.objects.map (fun obj => obj.update M win (some eng.mousePos)) }

/-- The animation loop run for as many frames as there are entries in `wins`;
each entry is the viewport during that frame. -/
def frames (M : Math K) (rnd : Nat → K) : List (Window K) → AntigravityEngine K →
    AntigravityEngine K
  | [], eng => eng
  | win :: wins, eng => frames M rnd wins (animate M rnd win eng)

end AntigravityEngine

/-- The relative velocity of two objects along the direction `(dx, dy) / distance`,
the quantity `velAlongNormal` of `resolveCollision` (lines 162-168). -/
def velAlongNormal (obj1 obj2 : PhysicsObject K) (dx dy distance : K) : K :=
  (obj1.vel.x - obj2.vel.x) * (dx / distance) + (obj1.vel.y - obj2.vel.y) * (dy / distance)

/-- The centre-to-centre vector `(dx, dy)` of `checkCollisions` (lines 149-150). -/
def centreDelta (obj1 obj2 : PhysicsObject K) : Vec K :=
  ⟨(obj1.pos.x + obj1.width / 2) - (obj2.pos.x + obj2.width / 2),
   (obj1.pos.y + obj1.height / 2) - (obj2.pos.y + obj2.height / 2)⟩

/-- The centre distance `distance` of `checkCollisions` (lines 149-151). -/
def centreDistance (M : Math K) (obj1 obj2 : PhysicsObject K) : K :=
  M.sqrt ((centreDelta obj1 obj2).x * (centreDelta obj1 obj2).x
    + (centreDelta obj1 obj2).y * (centreDelta obj1 obj2).y)

/-- `o'` is `o` moved by `(sx, sy)`: same velocity, size, radius, mass and drag
flag (the angle and the angular velocity are not compared). -/
def movedBy (o o' : PhysicsObject K) (sx sy : K) : Prop :=
  o'.pos = ⟨o.pos.x + sx, o.pos.y + sy⟩ ∧ o'.vel = o.vel ∧ o'.width = o.width
  ∧ o'.height = o.height ∧ o'.radius = o.radius ∧ o'.mass = o.mass
  ∧ o'.isDragging = o.isDragging

/-- Two free objects at rest, of radius 30 each and of equal positive mass, whose
centres are `d` apart. -/
def restingPair (obj1 obj2 : PhysicsObject K) (d : K) : Prop :=
  obj1.isDragging = false ∧ obj2.isDragging = false
  ∧ obj1.vel = ⟨0, 0⟩ ∧ obj2.vel = ⟨0, 0⟩
  ∧ obj1.radius = 30 ∧ obj2.radius = 30 ∧ obj1.mass = obj2.mass ∧ 0 < obj1.mass
  ∧ (centreDelta obj1 obj2).x * (centreDelta obj1 obj2).x
      + (centreDelta obj1 obj2).y * (centreDelta obj1 obj2).y = d * d

/-- During `update` of `o` neither the repulsion fires nor a wall is touched:
the pointer is at distance at least 300 from the centre after integration and
the integrated rectangle lies inside the viewport. -/
def undisturbed (M : Math K) (win : Window K) (mousePos : Vec K) (o : PhysicsObject K) : Prop :=
  300 ≤ PhysicsObject.pointerDist M (PhysicsObject.integrate o) mousePos
  ∧ 0 ≤ o.pos.x + o.vel.x ∧ o.pos.x + o.vel.x + o.width ≤ win.innerWidth
  ∧ 0 ≤ o.pos.y + o.vel.y ∧ o.pos.y + o.vel.y + o.height ≤ win.innerHeight

/-- In every frame of the run, every object is `undisturbed` when `animate`
calls its `update`, that is, after the collision pass of that frame. -/
def undisturbedAll (M : Math K) (rnd : Nat → K) : List (Window K) → AntigravityEngine K → Prop
  | [], _ => True
  | win :: wins, eng =>
    (∀ o ∈ (AntigravityEngine.checkCollisions M rnd eng).objects,
        undisturbed M win eng.mousePos o)
    ∧ undisturbedAll M rnd wins (AntigravityEngine.animate M rnd win eng)

/-- The first two `if`s of the block "Wall bouncing" (lines 97-104), on the x axis. -/
def bounceX (win : Window K) (o : PhysicsObject K) : PhysicsObject K :=
  let o := if o.pos.x < 0 then
    { o with pos := ⟨0, o.pos.y⟩, vel := ⟨o.vel.x * -1, o.vel.y⟩ } else o
  let o := if o.pos.x + o.width > win.innerWidth then
    { o with pos := ⟨win.innerWidth - o.width, o.pos.y⟩, vel := ⟨o.vel.x * -1, o.vel.y⟩ } else o
  o

/-- The last two `if`s of the block "Wall bouncing" (lines 105-112), on the y axis. -/
def bounceY (win : Window K) (o : PhysicsObject K) : PhysicsObject K :=
  let o := if o.pos.y < 0 then
    { o with pos := ⟨o.pos.x, 0⟩, vel := ⟨o.vel.x, o.vel.y * -1⟩ } else o
  let o := if o.pos.y + o.height > win.innerHeight then
    { o with pos := ⟨o.pos.x, win.innerHeight - o.height⟩, vel := ⟨o.vel.x, o.vel.y * -1⟩ } else o
  o

/-- The four fields that the constructor derives from the measured size. -/
def PhysicsObject.shape (o : PhysicsObject K) : K × K × K × K :=
  (o.width, o.height, o.radius, o.mass)

/-- The impulse magnitude `j` of `resolveCollision` (lines 172-175). -/
def impulse (obj1 obj2 : PhysicsObject K) (dx dy distance : K) : K :=
  -(1 + 0.8) * velAlongNormal obj1 obj2 dx dy distance / (1 / obj1.mass + 1 / obj2.mass)

end Code

section Examples

/-- A square root on `ℚ` that is exact on squares: the integer square roots of
the numerator and of the denominator. -/
def sqrtQ (q : ℚ) : ℚ := (Nat.sqrt q.num.natAbs : ℚ) / (Nat.sqrt q.den : ℚ)

/-- A `Math` on `ℚ` for running the code on examples: `sqrt` is exact on
squares, and `atan2`, `cos`, `sin` are the values of the real functions on the
non-negative x axis (`atan2 0 x = 0`, `cos 0 = 1`, `sin 0 = 0`). -/
def mathQ : Math ℚ :=
  { sqrt := sqrtQ, atan2 := fun _ _ => 0, cos := fun _ => 1, sin := fun _ => 0 }

/-- A stream of draws in `[0, 1)`. -/
def rndQ : Nat → ℚ := fun n => 1 / (n + 2)

/-- A free 40 by 25 object (radius 20, mass 1) with the given position and velocity. -/
def card (px py vx vy : ℚ) : PhysicsObject ℚ :=
  { pos := ⟨px, py⟩, vel := ⟨vx, vy⟩, angle := 0, rotVel := 0, width := 40, height := 25,
    radius := 20, mass := 1, isDragging := false, dragOffset := ⟨0, 0⟩ }

/-- A free 50 by 50 object (radius 25, mass 2.5) with the given position and velocity. -/
def tile (px py vx vy : ℚ) : PhysicsObject ℚ :=
  { pos := ⟨px, py⟩, vel := ⟨vx, vy⟩, angle := 0, rotVel := 0, width := 50, height := 50,
    radius := 25, mass := 2.5, isDragging := false, dragOffset := ⟨0, 0⟩ }

/-- A 40 by 25 object held by the pointer, grabbed 5 pixels inside its corner. -/
def held (px py : ℚ) : PhysicsObject ℚ :=
  { pos := ⟨px, py⟩, vel := ⟨3, 4⟩, angle := 0, rotVel := 0, width := 40, height := 25,
    radius := 20, mass := 1, isDragging := true, dragOffset := ⟨5, 5⟩ }

/-- A viewport of 1000 by 800 pixels. -/
def screen : Window ℚ := ⟨1000, 800⟩

/-- An engine with a held object overlapped by a free one that moves towards it. -/
def heldDemo : AntigravityEngine ℚ :=
  { objects := [held 100 100, card 110 100 (-1) 0], mousePos := ⟨105, 105⟩, drawn := 0 }

/-- A free 60 by 60 object at rest (radius 30, mass 3.6) at the given position. -/
def disc (px py : ℚ) : PhysicsObject ℚ :=
  { pos := ⟨px, py⟩, vel := ⟨0, 0⟩, angle := 0, rotVel := 0, width := 60, height := 60,
    radius := 30, mass := 3.6, isDragging := false, dragOffset := ⟨0, 0⟩ }

/-- A viewport of 2000 by 800 pixels. -/
def wide : Window ℚ := ⟨2000, 800⟩

/-- Two discs at rest with centres 10 apart, and the pointer far to their right. -/
def pairDemo : AntigravityEngine ℚ :=
  { objects := [disc 100 100, disc 110 100], mousePos := ⟨1000, 130⟩, drawn := 0 }

/-- The states that the run of `pairDemo` passes through: both discs on the
line `y = 100`, each pushed outwards by `s` with `0 ≤ s < 19`. -/
def lined (eng : AntigravityEngine ℚ) : Prop :=
  ∃ a b s, eng.objects = [a, b] ∧ eng.mousePos = ⟨1000, 130⟩ ∧ restingPair a b (10 + 2 * s)
    ∧ 0 ≤ s ∧ s < 19 ∧ a.pos = ⟨100 - s, 100⟩ ∧ b.pos = ⟨110 + s, 100⟩
    ∧ a.width = 60 ∧ a.height = 60 ∧ b.width = 60 ∧ b.height = 60

/-- Two free objects whose centres are 200 apart, moving towards each other. -/
def apartDemo : AntigravityEngine ℚ :=
  { objects := [card 100 100 1 0, card 300 100 (-1) 0], mousePos := ⟨-1000, -1000⟩,
    drawn := 0 }

end Examples

section Proofs

variable {K : Type} [LinearOrderedField K]

open PhysicsObject AntigravityEngine

/-! ### `resolveCollision`: the velocities -/

theorem resolveCollision_of_separating (rnd : Nat → K) (k : Nat) (obj1 obj2 : PhysicsObject K)
    (dx dy distance : K) (hvn : 0 < velAlongNormal obj1 obj2 dx dy distance) :
    resolveCollision rnd k obj1 obj2 dx dy distance = (obj1, obj2, k) := by
  unfold velAlongNormal at hvn
  unfold resolveCollision
  simp only [gt_iff_lt, hvn, if_true]

theorem resolveCollision_fst_vel (rnd : Nat → K) (k : Nat) (obj1 obj2 : PhysicsObject K)
    (dx dy distance : K) (hd1 : obj1.isDragging = false)
    (hvn : velAlongNormal obj1 obj2 dx dy distance ≤ 0) :
    (resolveCollision rnd k obj1 obj2 dx dy distance).1.vel
      = ⟨obj1.vel.x + 1 / obj1.mass * (impulse obj1 obj2 dx dy distance * (dx / distance)),
         obj1.vel.y + 1 / obj1.mass * (impulse obj1 obj2 dx dy distance * (dy / distance))⟩ := by
  unfold impulse
  unfold velAlongNormal at hvn ⊢
  unfold resolveCollision
  simp only [hd1, not_lt.mpr hvn, gt_iff_lt, if_false, Bool.false_eq_true]
  split_ifs <;> rfl

theorem resolveCollision_snd_vel (rnd : Nat → K) (k : Nat) (obj1 obj2 : PhysicsObject K)
    (dx dy distance : K) (hd2 : obj2.isDragging = false)
    (hvn : velAlongNormal obj1 obj2 dx dy distance ≤ 0) :
    (resolveCollision rnd k obj1 obj2 dx dy distance).2.1.vel
      = ⟨obj2.vel.x - 1 / obj2.mass * (impulse obj1 obj2 dx dy distance * (dx / distance)),
         obj2.vel.y - 1 / obj2.mass * (impulse obj1 obj2 dx dy distance * (dy / distance))⟩ := by
  unfold impulse
  unfold velAlongNormal at hvn ⊢
  unfold resolveCollision
  simp only [hd2, not_lt.mpr hvn, gt_iff_lt, if_false, Bool.false_eq_true]
  split_ifs <;> rfl

theorem velAlongNormal_resolveCollision (rnd : Nat → K) (k : Nat) (obj1 obj2 : PhysicsObject K)
    (dx dy distance : K)
    (hd1 : obj1.isDragging = false) (hd2 : obj2.isDragging = false)
    (hm1 : 0 < obj1.mass) (hm2 : 0 < obj2.mass)
    (hdist : 0 < distance) (hnorm : distance * distance = dx * dx + dy * dy)
    (hvn : velAlongNormal obj1 obj2 dx dy distance ≤ 0) :
    velAlongNormal (resolveCollision rnd k obj1 obj2 dx dy distance).1
        (resolveCollision rnd k obj1 obj2 dx dy distance).2.1 dx dy distance
      = -0.8 * velAlongNormal obj1 obj2 dx dy distance := by
  unfold velAlongNormal at hvn ⊢
  unfold resolveCollision
  simp only [hd1, hd2, not_lt.mpr hvn, gt_iff_lt, if_false, Bool.false_eq_true]
  have hs : 1 / obj1.mass + 1 / obj2.mass ≠ 0 := by positivity
  have hd : distance ≠ 0 := hdist.ne.symm
  have hn : dx / distance * (dx / distance) + dy / distance * (dy / distance) = 1 := by
    field_simp
    linarith
  generalize dx / distance = nx at hn hvn ⊢
  generalize dy / distance = ny at hn hvn ⊢
  generalize 1 / obj1.mass = a at hs ⊢
  generalize 1 / obj2.mass = b at hs ⊢
  have hdiv : ∀ v : K, -(1 + 0.8) * v / (a + b) * (a + b) = -(1 + 0.8) * v := fun v =>
    div_mul_cancel₀ _ hs
  split_ifs <;>
  · simp only
    linear_combination
      (-(1 + 0.8) * ((obj1.vel.x - obj2.vel.x) * nx + (obj1.vel.y - obj2.vel.y) * ny)) * hn
      + (nx * nx + ny * ny)
        * hdiv ((obj1.vel.x - obj2.vel.x) * nx + (obj1.vel.y - obj2.vel.y) * ny)

/-- C1: for two free objects with positive masses, a positive centre distance
`distance` (the length of `(dx, dy)`) and a relative normal velocity `vn ≤ 0`,
the relative velocity along the same normal after `resolveCollision` is
`-0.8 * vn`, hence it is not negative: the pair is not left approaching. -/
theorem resolveCollision_restitution (rnd : Nat → K) (k : Nat) (obj1 obj2 : PhysicsObject K)
    (dx dy distance : K)
    (hd1 : obj1.isDragging = false) (hd2 : obj2.isDragging = false)
    (hm1 : 0 < obj1.mass) (hm2 : 0 < obj2.mass)
    (hdist : 0 < distance) (hnorm : distance * distance = dx * dx + dy * dy)
    (hvn : velAlongNormal obj1 obj2 dx dy distance ≤ 0) :
    velAlongNormal (resolveCollision rnd k obj1 obj2 dx dy distance).1
        (resolveCollision rnd k obj1 obj2 dx dy distance).2.1 dx dy distance
      = -0.8 * velAlongNormal obj1 obj2 dx dy distance
    ∧ 0 ≤ velAlongNormal (resolveCollision rnd k obj1 obj2 dx dy distance).1
        (resolveCollision rnd k obj1 obj2 dx dy distance).2.1 dx dy distance := by
  have key := velAlongNormal_resolveCollision rnd k obj1 obj2 dx dy distance hd1 hd2 hm1 hm2
    hdist hnorm hvn
  refine ⟨key, ?_⟩
  rw [key]
  have h08 : (0 : K) ≤ 0.8 := by norm_num
  nlinarith

theorem resolveCollision_restitution_witness :
    velAlongNormal (resolveCollision rndQ 0 (card 106 108 (-1) 0) (card 100 100 1 0) 6 8 10).1
        (resolveCollision rndQ 0 (card 106 108 (-1) 0) (card 100 100 1 0) 6 8 10).2.1 6 8 10
      = -0.8 * velAlongNormal (card 106 108 (-1) 0) (card 100 100 1 0) 6 8 10
    ∧ 0 ≤ velAlongNormal
        (resolveCollision rndQ 0 (card 106 108 (-1) 0) (card 100 100 1 0) 6 8 10).1
        (resolveCollision rndQ 0 (card 106 108 (-1) 0) (card 100 100 1 0) 6 8 10).2.1 6 8 10 :=
  resolveCollision_restitution rndQ 0 (card 106 108 (-1) 0) (card 100 100 1 0) 6 8 10 rfl rfl
    (by norm_num [card]) (by norm_num [card]) (by norm_num) (by norm_num)
    (by norm_num [velAlongNormal, card])

/-- C2, as stated, fails: two free objects of mass 1 that approach head-on at
speed 1 each (`vn = -2`) leave `resolveCollision` with relative normal velocity
`1.6`, not `1.8`. -/
theorem head_on_not_1_8 :
    (card 110 100 (-1) 0).mass = 1 ∧ (card 100 100 1 0).mass = 1
    ∧ velAlongNormal (card 110 100 (-1) 0) (card 100 100 1 0) 10 0 10 = -2
    ∧ velAlongNormal (resolveCollision rndQ 0 (card 110 100 (-1) 0) (card 100 100 1 0) 10 0 10).1
        (resolveCollision rndQ 0 (card 110 100 (-1) 0) (card 100 100 1 0) 10 0 10).2.1 10 0 10
        = 1.6
    ∧ velAlongNormal (resolveCollision rndQ 0 (card 110 100 (-1) 0) (card 100 100 1 0) 10 0 10).1
        (resolveCollision rndQ 0 (card 110 100 (-1) 0) (card 100 100 1 0) 10 0 10).2.1 10 0 10
        ≠ 1.8 := by
  norm_num [velAlongNormal, resolveCollision, card]

/-- C2, amended: two free objects of mass 1 that approach head-on at speed 1
each (`v1 = -n`, `v2 = n` for the unit normal `n = (dx, dy) / distance`, so
`vn = -2`) leave `resolveCollision` with velocities `0.8 * n` and `-0.8 * n`:
they separate with relative normal velocity `1.6`. -/
theorem resolveCollision_head_on (rnd : Nat → K) (k : Nat) (obj1 obj2 : PhysicsObject K)
    (dx dy distance : K)
    (hd1 : obj1.isDragging = false) (hd2 : obj2.isDragging = false)
    (hm1 : obj1.mass = 1) (hm2 : obj2.mass = 1)
    (hdist : 0 < distance) (hnorm : distance * distance = dx * dx + dy * dy)
    (hv1 : obj1.vel = ⟨-(dx / distance), -(dy / distance)⟩)
    (hv2 : obj2.vel = ⟨dx / distance, dy / distance⟩) :
    velAlongNormal obj1 obj2 dx dy distance = -2
    ∧ (resolveCollision rnd k obj1 obj2 dx dy distance).1.vel
        = ⟨0.8 * (dx / distance), 0.8 * (dy / distance)⟩
    ∧ (resolveCollision rnd k obj1 obj2 dx dy distance).2.1.vel
        = ⟨-0.8 * (dx / distance), -0.8 * (dy / distance)⟩
    ∧ velAlongNormal (resolveCollision rnd k obj1 obj2 dx dy distance).1
        (resolveCollision rnd k obj1 obj2 dx dy distance).2.1 dx dy distance = 1.6 := by
  have hd : distance ≠ 0 := hdist.ne.symm
  have hn : dx / distance * (dx / distance) + dy / distance * (dy / distance) = 1 := by
    field_simp
    linarith
  have hvn : velAlongNormal obj1 obj2 dx dy distance = -2 := by
    unfold velAlongNormal
    rw [hv1, hv2]
    simp only
    linear_combination (-2 : K) * hn
  have himp : impulse obj1 obj2 dx dy distance = 1.8 := by
    unfold impulse
    rw [hvn, hm1, hm2]
    norm_num
  have hv : (resolveCollision rnd k obj1 obj2 dx dy distance).1.vel
        = ⟨0.8 * (dx / distance), 0.8 * (dy / distance)⟩
      ∧ (resolveCollision rnd k obj1 obj2 dx dy distance).2.1.vel
        = ⟨-0.8 * (dx / distance), -0.8 * (dy / distance)⟩ := by
    rw [resolveCollision_fst_vel rnd k obj1 obj2 dx dy distance hd1 (by rw [hvn]; norm_num),
      resolveCollision_snd_vel rnd k obj1 obj2 dx dy distance hd2 (by rw [hvn]; norm_num),
      himp, hm1, hm2, hv1, hv2]
    simp only [Vec.mk.injEq]
    refine ⟨⟨?_, ?_⟩, ?_, ?_⟩ <;> ring
  refine ⟨hvn, hv.1, hv.2, ?_⟩
  unfold velAlongNormal
  rw [hv.1, hv.2]
  simp only
  linear_combination (1.6 : K) * hn

theorem resolveCollision_head_on_witness :
    velAlongNormal (card 110 100 (-1) 0) (card 100 100 1 0) 10 0 10 = -2
    ∧ (resolveCollision rndQ 0 (card 110 100 (-1) 0) (card 100 100 1 0) 10 0 10).1.vel
        = ⟨0.8 * (10 / 10), 0.8 * (0 / 10)⟩
    ∧ (resolveCollision rndQ 0 (card 110 100 (-1) 0) (card 100 100 1 0) 10 0 10).2.1.vel
        = ⟨-0.8 * (10 / 10), -0.8 * (0 / 10)⟩
    ∧ velAlongNormal (resolveCollision rndQ 0 (card 110 100 (-1) 0) (card 100 100 1 0) 10 0 10).1
        (resolveCollision rndQ 0 (card 110 100 (-1) 0) (card 100 100 1 0) 10 0 10).2.1 10 0 10
        = 1.6 :=
  resolveCollision_head_on rndQ 0 (card 110 100 (-1) 0) (card 100 100 1 0) 10 0 10 rfl rfl
    rfl rfl (by norm_num) (by norm_num) (by norm_num [card]) (by norm_num [card])

/-- C3: when the relative normal velocity is strictly positive,
`resolveCollision` returns both objects as they were (position, velocity,
angular velocity and every other field) and consumes no draw, whether the
objects are dragged or not and whether they overlap or not. -/
theorem resolveCollision_separating_noop (rnd : Nat → K) (k : Nat)
    (obj1 obj2 : PhysicsObject K) (dx dy distance : K)
    (hvn : 0 < velAlongNormal obj1 obj2 dx dy distance) :
    resolveCollision rnd k obj1 obj2 dx dy distance = (obj1, obj2, k) :=
  resolveCollision_of_separating rnd k obj1 obj2 dx dy distance hvn

theorem resolveCollision_separating_noop_witness :
    (card 110 100 1 0).radius + (card 100 100 (-1) 0).radius > 10
    ∧ resolveCollision rndQ 0 (card 110 100 1 0) (card 100 100 (-1) 0) 10 0 10
      = (card 110 100 1 0, card 100 100 (-1) 0, 0) :=
  ⟨by norm_num [card],
   resolveCollision_separating_noop rndQ 0 (card 110 100 1 0) (card 100 100 (-1) 0) 10 0 10
    (by norm_num [velAlongNormal, card])⟩

/-! ### Dragged objects -/

theorem foldl_preserves {α β : Type} (P : α → Prop) (f : α → β → α)
    (h : ∀ a b, P a → P (f a b)) : ∀ (l : List β) (a : α), P a → P (l.foldl f a) := by
  intro l
  induction l with
  | nil => intro a ha; exact ha
  | cons b l ih => intro a ha; exact ih (f a b) (h a b ha)

theorem checkCollisions_preserves (M : Math K) (rnd : Nat → K) (P : AntigravityEngine K → Prop)
    (h : ∀ i j eng, P eng → P (collidePair M rnd i j eng)) (eng : AntigravityEngine K)
    (h0 : P eng) : P (checkCollisions M rnd eng) := by
  unfold checkCollisions
  refine foldl_preserves P _ (fun e i he => ?_) _ eng h0
  exact foldl_preserves P _ (fun e' j he' => h i j e' he') _ e he

theorem update_of_dragging (M : Math K) (win : Window K) (o : PhysicsObject K)
    (mousePos : Option (Vec K)) (h : o.isDragging = true) : o.update M win mousePos = o := by
  unfold update
  simp [h]

theorem resolveCollision_fst_of_dragging (rnd : Nat → K) (k : Nat) (obj1 obj2 : PhysicsObject K)
    (dx dy distance : K) (h : obj1.isDragging = true) :
    (resolveCollision rnd k obj1 obj2 dx dy distance).1 = obj1 := by
  unfold resolveCollision
  simp only [h, if_true]
  split_ifs <;> rfl

theorem resolveCollision_snd_of_dragging (rnd : Nat → K) (k : Nat) (obj1 obj2 : PhysicsObject K)
    (dx dy distance : K) (h : obj2.isDragging = true) :
    (resolveCollision rnd k obj1 obj2 dx dy distance).2.1 = obj2 := by
  unfold resolveCollision
  simp only [h, if_true]
  split_ifs <;> rfl

theorem collidePair_dragging (M : Math K) (rnd : Nat → K) (i j n : Nat)
    (eng : AntigravityEngine K) (b : PhysicsObject K) (hb : b.isDragging = true)
    (h : eng.objects[n]? = some b) : (collidePair M rnd i j eng).objects[n]? = some b := by
  unfold collidePair
  split
  · next obj1 obj2 h1 h2 =>
    simp only
    split_ifs
    · simp only [List.getElem?_set, List.length_set]
      have hi : i < eng.objects.length := by
        by_contra hc
        rw [List.getElem?_eq_none (not_lt.mp hc)] at h1
        exact Option.noConfusion h1
      have hj : j < eng.objects.length := by
        by_contra hc
        rw [List.getElem?_eq_none (not_lt.mp hc)] at h2
        exact Option.noConfusion h2
      by_cases hjn : j = n
      · subst hjn
        rw [h] at h2
        cases h2
        simp [hj, resolveCollision_snd_of_dragging _ _ _ _ _ _ _ hb]
      · by_cases hin : i = n
        · subst hin
          rw [h] at h1
          cases h1
          simp [hi, hjn, resolveCollision_fst_of_dragging _ _ _ _ _ _ _ hb]
        · simp [hjn, hin, h]
    · exact h
  · exact h

theorem checkCollisions_dragging (M : Math K) (rnd : Nat → K) (n : Nat)
    (eng : AntigravityEngine K) (b : PhysicsObject K) (hb : b.isDragging = true)
    (h : eng.objects[n]? = some b) : (checkCollisions M rnd eng).objects[n]? = some b :=
  checkCollisions_preserves M rnd (fun e => e.objects[n]? = some b)
    (fun i j e he => collidePair_dragging M rnd i j n e b hb he) eng h

theorem animate_dragging (M : Math K) (rnd : Nat → K) (win : Window K) (n : Nat)
    (eng : AntigravityEngine K) (b : PhysicsObject K) (hb : b.isDragging = true)
    (h : eng.objects[n]? = some b) : (animate M rnd win eng).objects[n]? = some b := by
  unfold animate
  simp only [List.getElem?_map, checkCollisions_dragging M rnd n eng b hb h, Option.map_some',
    update_of_dragging _ _ _ _ hb]

theorem frames_dragging (M : Math K) (rnd : Nat → K) (n : Nat) (b : PhysicsObject K)
    (hb : b.isDragging = true) : ∀ (wins : List (Window K)) (eng : AntigravityEngine K),
    eng.objects[n]? = some b → (frames M rnd wins eng).objects[n]? = some b := by
  intro wins
  induction wins with
  | nil => intro eng h; exact h
  | cons win wins ih =>
    intro eng h
    exact ih _ (animate_dragging M rnd win n eng b hb h)

/-- C4: an object with `isDragging = true` is returned unchanged (position,
velocity, angle and every other field) by `update`, for any viewport and
pointer, and keeps its place unchanged in the list through `checkCollisions`
and through any number of frames, whatever the other objects are; so after a
`mousemove` to the pointer `p` its position is `p - dragOffset` and stays so
through any number of frames. -/
theorem dragging_object_fixed (M : Math K) (rnd : Nat → K) (wins : List (Window K))
    (eng : AntigravityEngine K) (n : Nat) (b : PhysicsObject K)
    (hb : b.isDragging = true) (h : eng.objects[n]? = some b) :
    (∀ (win : Window K) (mousePos : Option (Vec K)), b.update M win mousePos = b)
    ∧ (checkCollisions M rnd eng).objects[n]? = some b
    ∧ (frames M rnd wins eng).objects[n]? = some b
    ∧ ∀ (p delta : Vec K) (eng' : AntigravityEngine K),
        eng'.objects[n]? = some (b.mousemove p delta) →
        ((frames M rnd wins eng').objects[n]?).map (fun o => o.pos)
          = some ⟨p.x - b.dragOffset.x, p.y - b.dragOffset.y⟩ := by
  refine ⟨fun win mousePos => update_of_dragging M win b mousePos hb,
    checkCollisions_dragging M rnd n eng b hb h, frames_dragging M rnd n b hb wins eng h, ?_⟩
  intro p delta eng' h'
  have hm : (b.mousemove p delta).isDragging = true := by
    unfold PhysicsObject.mousemove
    simp [hb]
  rw [frames_dragging M rnd n _ hm wins eng' h']
  unfold PhysicsObject.mousemove
  simp [hb]

theorem dragging_object_fixed_witness :
    (∀ (win : Window ℚ) (mousePos : Option (Vec ℚ)),
      (held 100 100).update mathQ win mousePos = held 100 100)
    ∧ (checkCollisions mathQ rndQ heldDemo).objects[0]? = some (held 100 100)
    ∧ (frames mathQ rndQ [screen, screen, screen] heldDemo).objects[0]? = some (held 100 100)
    ∧ ∀ (p delta : Vec ℚ) (eng' : AntigravityEngine ℚ),
        eng'.objects[0]? = some ((held 100 100).mousemove p delta) →
        ((frames mathQ rndQ [screen, screen, screen] eng').objects[0]?).map (fun o => o.pos)
          = some ⟨p.x - (held 100 100).dragOffset.x, p.y - (held 100 100).dragOffset.y⟩ :=
  dragging_object_fixed mathQ rndQ [screen, screen, screen] heldDemo 0 (held 100 100) rfl rfl

/-! ### `update` of a free object -/

theorem update_of_free (M : Math K) (win : Window K) (o : PhysicsObject K)
    (mousePos : Option (Vec K)) (h : o.isDragging = false) :
    o.update M win mousePos
      = wallBouncing win (damping (mouseRepulsion M (integrate o) mousePos)) := by
  unfold update
  simp [h]

theorem mouseRepulsion_isDragging (M : Math K) (o : PhysicsObject K)
    (mousePos : Option (Vec K)) : (mouseRepulsion M o mousePos).isDragging = o.isDragging := by
  unfold mouseRepulsion
  cases mousePos with
  | none => rfl
  | some p => simp only; split_ifs <;> rfl

theorem wallBouncing_isDragging (win : Window K) (o : PhysicsObject K) :
    (wallBouncing win o).isDragging = o.isDragging := by
  unfold wallBouncing
  simp only
  split_ifs <;> rfl

theorem update_isDragging (M : Math K) (win : Window K) (o : PhysicsObject K)
    (mousePos : Option (Vec K)) : (o.update M win mousePos).isDragging = o.isDragging := by
  unfold update
  split_ifs
  · rfl
  · rw [wallBouncing_isDragging]
    unfold damping
    simp only [mouseRepulsion_isDragging]
    rfl

theorem mouseRepulsion_of_far (M : Math K) (o : PhysicsObject K) (mousePos : Option (Vec K))
    (h : pointerFar M o mousePos) : mouseRepulsion M (integrate o) mousePos = integrate o := by
  unfold mouseRepulsion
  cases mousePos with
  | none => rfl
  | some p =>
    unfold pointerFar pointerDist at h
    simp only at h ⊢
    rw [if_neg (not_lt.mpr h)]

theorem wallBouncing_abs_vel (win : Window K) (o : PhysicsObject K) :
    |(wallBouncing win o).vel.x| = |o.vel.x| ∧ |(wallBouncing win o).vel.y| = |o.vel.y| := by
  unfold wallBouncing
  simp only
  split_ifs <;> simp

theorem update_abs_vel (M : Math K) (win : Window K) (o : PhysicsObject K)
    (mousePos : Option (Vec K)) (hd : o.isDragging = false) (h : pointerFar M o mousePos) :
    |(o.update M win mousePos).vel.x| = 0.99 * |o.vel.x|
    ∧ |(o.update M win mousePos).vel.y| = 0.99 * |o.vel.y| := by
  rw [update_of_free M win o mousePos hd, mouseRepulsion_of_far M o mousePos h]
  have h99 : |(0.99 : K)| = 0.99 := abs_of_pos (by norm_num)
  obtain ⟨hx, hy⟩ := wallBouncing_abs_vel win (damping (integrate o))
  rw [hx, hy]
  unfold damping integrate
  simp only [abs_mul, h99]
  constructor <;> ring

/-- C5: for a free object and `n` consecutive calls of `update` in each of
which the pointer is absent or at distance at least 300 from the centre
measured after integration, `|vel.x|` and `|vel.y|` are each `0.99 ^ n` times
their initial values, with or without wall bounces, so the squared speed is
`(0.99 ^ n) ^ 2` times the initial one; and `0.99 ^ 100` lies between `0.366`
and `0.3661`. -/
theorem updates_damping (M : Math K) (ins : List (Window K × Option (Vec K)))
    (o : PhysicsObject K) (hd : o.isDragging = false) (hfar : pointerFarAll M ins o) :
    |(updates M ins o).vel.x| = 0.99 ^ ins.length * |o.vel.x|
    ∧ |(updates M ins o).vel.y| = 0.99 ^ ins.length * |o.vel.y|
    ∧ (updates M ins o).vel.x ^ 2 + (updates M ins o).vel.y ^ 2
        = (0.99 ^ ins.length) ^ 2 * (o.vel.x ^ 2 + o.vel.y ^ 2)
    ∧ (0.366 : K) < 0.99 ^ 100 ∧ (0.99 : K) ^ 100 < 0.3661 := by
  have habs : |(updates M ins o).vel.x| = 0.99 ^ ins.length * |o.vel.x|
      ∧ |(updates M ins o).vel.y| = 0.99 ^ ins.length * |o.vel.y| := by
    induction ins generalizing o with
    | nil => simp [updates]
    | cons a rest ih =>
      obtain ⟨win, mousePos⟩ := a
      obtain ⟨h1, h2⟩ := hfar
      obtain ⟨hx, hy⟩ := update_abs_vel M win o mousePos hd h1
      obtain ⟨ihx, ihy⟩ := ih (o.update M win mousePos)
        ((update_isDragging M win o mousePos).trans hd) h2
      simp only [updates, List.length_cons, pow_succ]
      rw [ihx, ihy, hx, hy]
      constructor <;> ring
  refine ⟨habs.1, habs.2, ?_, by norm_num, by norm_num⟩
  rw [← sq_abs (updates M ins o).vel.x, ← sq_abs (updates M ins o).vel.y, habs.1, habs.2,
    ← sq_abs o.vel.x, ← sq_abs o.vel.y]
  ring

theorem sqrtQ_mul_self (x : ℚ) : sqrtQ (x * x) = |x| := by
  unfold sqrtQ
  rw [Rat.mul_self_num, Rat.mul_self_den, Int.natAbs_mul, Nat.sqrt_eq, Nat.sqrt_eq,
    Rat.abs_def, Rat.divInt_eq_div]
  simp [Nat.cast_natAbs]

theorem pointerDist_mathQ_level (o : PhysicsObject ℚ) (p : Vec ℚ)
    (h : o.pos.y + o.height / 2 = p.y) :
    pointerDist mathQ o p = |o.pos.x + o.width / 2 - p.x| := by
  unfold pointerDist
  rw [h, sub_self, mul_zero, add_zero]
  exact sqrtQ_mul_self _

theorem tile_pointerFarAll :
    pointerFarAll mathQ [(screen, some ⟨630, 125⟩), (screen, some ⟨630, 125⟩), (screen, none)]
      (tile 5 100 (-10) 0) := by
  have far1 : pointerFar mathQ (tile 5 100 (-10) 0) (some ⟨630, 125⟩) := by
    show 300 ≤ pointerDist mathQ (integrate (tile 5 100 (-10) 0)) ⟨630, 125⟩
    rw [pointerDist_mathQ_level _ _ (by norm_num [integrate, tile])]
    norm_num [integrate, tile]
  have step1 : (tile 5 100 (-10) 0).update mathQ screen (some ⟨630, 125⟩)
      = tile 0 100 9.9 0 := by
    rw [update_of_free _ _ _ _ rfl, mouseRepulsion_of_far _ _ _ far1]
    norm_num [wallBouncing, damping, integrate, tile, screen]
  have far2 : pointerFar mathQ (tile 0 100 9.9 0) (some ⟨630, 125⟩) := by
    show 300 ≤ pointerDist mathQ (integrate (tile 0 100 9.9 0)) ⟨630, 125⟩
    rw [pointerDist_mathQ_level _ _ (by norm_num [integrate, tile])]
    norm_num [integrate, tile, abs_of_neg]
  refine ⟨far1, ?_⟩
  rw [step1]
  exact ⟨far2, trivial, trivial⟩

theorem updates_damping_witness :
    |(updates mathQ [(screen, some ⟨630, 125⟩), (screen, some ⟨630, 125⟩), (screen, none)]
        (tile 5 100 (-10) 0)).vel.x| = 0.99 ^ 3 * |(tile 5 100 (-10) 0).vel.x|
    ∧ |(updates mathQ [(screen, some ⟨630, 125⟩), (screen, some ⟨630, 125⟩), (screen, none)]
        (tile 5 100 (-10) 0)).vel.y| = 0.99 ^ 3 * |(tile 5 100 (-10) 0).vel.y| :=
  ⟨(updates_damping mathQ [(screen, some ⟨630, 125⟩), (screen, some ⟨630, 125⟩), (screen, none)]
      (tile 5 100 (-10) 0) rfl tile_pointerFarAll).1,
   (updates_damping mathQ [(screen, some ⟨630, 125⟩), (screen, some ⟨630, 125⟩), (screen, none)]
      (tile 5 100 (-10) 0) rfl tile_pointerFarAll).2.1⟩

theorem mouseRepulsion_pos (M : Math K) (o : PhysicsObject K) (mousePos : Option (Vec K)) :
    (mouseRepulsion M o mousePos).pos = o.pos ∧ (mouseRepulsion M o mousePos).width = o.width
    ∧ (mouseRepulsion M o mousePos).height = o.height := by
  unfold mouseRepulsion
  cases mousePos with
  | none => exact ⟨rfl, rfl, rfl⟩
  | some p => simp only; split_ifs <;> exact ⟨rfl, rfl, rfl⟩

theorem wallBouncing_left (win : Window K) (o : PhysicsObject K) (hx : o.pos.x < 0)
    (hw : o.width ≤ win.innerWidth) :
    (wallBouncing win o).pos.x = 0 ∧ (wallBouncing win o).vel.x = -o.vel.x := by
  unfold wallBouncing
  simp only [hx, if_true, zero_add, gt_iff_lt, not_lt.mpr hw, if_false]
  split_ifs <;> simp

/-- C6, as stated, fails: a free 50 wide object at `pos.x = -5` in a viewport
1000 wide, moving right at 10 per frame with the pointer 600 away, leaves
`update` at `pos.x = 5` with `vel.x = 9.9`: the position is tested after the
velocity has been added, so it is not clamped and the sign is not flipped. -/
theorem update_negative_x_not_clamped :
    (tile (-5) 100 10 0).isDragging = false ∧ (tile (-5) 100 10 0).pos.x < 0
    ∧ ((tile (-5) 100 10 0).update mathQ screen (some ⟨630, 125⟩)).pos.x = 5
    ∧ ((tile (-5) 100 10 0).update mathQ screen (some ⟨630, 125⟩)).vel.x = 9.9 := by
  have far : pointerFar mathQ (tile (-5) 100 10 0) (some ⟨630, 125⟩) := by
    show 300 ≤ pointerDist mathQ (integrate (tile (-5) 100 10 0)) ⟨630, 125⟩
    rw [pointerDist_mathQ_level _ _ (by norm_num [integrate, tile])]
    norm_num [integrate, tile]
  rw [update_of_free _ _ _ _ rfl, mouseRepulsion_of_far _ _ _ far]
  norm_num [wallBouncing, damping, integrate, tile, screen]

/-- C6, amended: for a free object no wider than the viewport whose position
after integration, `pos.x + vel.x`, is negative, one call of `update` leaves
`pos.x = 0` and `vel.x` equal to minus the damped velocity; when the pointer
is absent or at distance at least 300 this is `-(0.99 * vel.x)`. -/
theorem update_left_wall (M : Math K) (win : Window K) (o : PhysicsObject K)
    (mousePos : Option (Vec K)) (hd : o.isDragging = false)
    (hx : o.pos.x + o.vel.x < 0) (hw : o.width ≤ win.innerWidth) :
    (o.update M win mousePos).pos.x = 0
    ∧ (o.update M win mousePos).vel.x
        = -(damping (mouseRepulsion M (integrate o) mousePos)).vel.x
    ∧ (pointerFar M o mousePos → (o.update M win mousePos).vel.x = -(o.vel.x * 0.99)) := by
  have hpos : (damping (mouseRepulsion M (integrate o) mousePos)).pos.x < 0 := by
    show (mouseRepulsion M (integrate o) mousePos).pos.x < 0
    rw [(mouseRepulsion_pos M (integrate o) mousePos).1]
    exact hx
  have hwid : (damping (mouseRepulsion M (integrate o) mousePos)).width ≤ win.innerWidth := by
    show (mouseRepulsion M (integrate o) mousePos).width ≤ win.innerWidth
    rw [(mouseRepulsion_pos M (integrate o) mousePos).2.1]
    exact hw
  obtain ⟨h1, h2⟩ := wallBouncing_left win _ hpos hwid
  rw [update_of_free M win o mousePos hd]
  refine ⟨h1, h2, fun hfar => ?_⟩
  rw [h2, mouseRepulsion_of_far M o mousePos hfar]
  rfl

theorem tile_left_far : pointerFar mathQ (tile (-5) 100 3 0) (some ⟨630, 125⟩) := by
  show 300 ≤ pointerDist mathQ (integrate (tile (-5) 100 3 0)) ⟨630, 125⟩
  rw [pointerDist_mathQ_level _ _ (by norm_num [integrate, tile])]
  norm_num [integrate, tile]

theorem update_left_wall_witness :
    ((tile (-5) 100 3 0).update mathQ screen (some ⟨630, 125⟩)).pos.x = 0
    ∧ ((tile (-5) 100 3 0).update mathQ screen (some ⟨630, 125⟩)).vel.x
        = -((tile (-5) 100 3 0).vel.x * 0.99) :=
  ⟨(update_left_wall mathQ screen (tile (-5) 100 3 0) (some ⟨630, 125⟩) rfl
      (by norm_num [tile]) (by norm_num [tile, screen])).1,
   (update_left_wall mathQ screen (tile (-5) 100 3 0) (some ⟨630, 125⟩) rfl
      (by norm_num [tile]) (by norm_num [tile, screen])).2.2 tile_left_far⟩

/-! ### `resolveCollision`: the spin -/

theorem resolveCollision_fst_rotVel (rnd : Nat → K) (k : Nat) (obj1 obj2 : PhysicsObject K)
    (dx dy distance : K) (hd1 : obj1.isDragging = false)
    (hvn : velAlongNormal obj1 obj2 dx dy distance ≤ 0) :
    (resolveCollision rnd k obj1 obj2 dx dy distance).1.rotVel
      = obj1.rotVel + (rnd k - 0.5) * 0.5 := by
  unfold velAlongNormal at hvn
  unfold resolveCollision
  simp only [hd1, not_lt.mpr hvn, gt_iff_lt, if_false, Bool.false_eq_true]
  split_ifs <;> rfl

theorem resolveCollision_snd_rotVel (rnd : Nat → K) (k : Nat) (obj1 obj2 : PhysicsObject K)
    (dx dy distance : K) (hd2 : obj2.isDragging = false)
    (hvn : velAlongNormal obj1 obj2 dx dy distance ≤ 0) :
    (resolveCollision rnd k obj1 obj2 dx dy distance).2.1.rotVel
      = obj2.rotVel + (rnd (if obj1.isDragging then k else k + 1) - 0.5) * 0.5 := by
  unfold velAlongNormal at hvn
  unfold resolveCollision
  simp only [hd2, not_lt.mpr hvn, gt_iff_lt, if_false, Bool.false_eq_true]
  split_ifs <;> rfl

/-- C8, as stated, fails: a free object with angular velocity `-0.2` that
collides (`vn = -2`) and draws `1/4` leaves `resolveCollision` with angular
velocity `-0.325`, outside `[-0.25, 0.25]`: the draw is added to the old
angular velocity, it does not replace it. -/
theorem spin_leaves_range :
    velAlongNormal { card 110 100 (-1) 0 with rotVel := -0.2 } (card 100 100 1 0) 10 0 10 ≤ 0
    ∧ (resolveCollision rndQ 2 { card 110 100 (-1) 0 with rotVel := -0.2 } (card 100 100 1 0)
        10 0 10).1.rotVel = -0.325
    ∧ ¬ (-0.25 ≤ (resolveCollision rndQ 2 { card 110 100 (-1) 0 with rotVel := -0.2 }
        (card 100 100 1 0) 10 0 10).1.rotVel) := by
  norm_num [velAlongNormal, resolveCollision, card, rndQ]

/-- C8, amended: in a call of `resolveCollision` that is not skipped
(`vn ≤ 0`), each free object of the pair has its angular velocity increased by
`(r - 0.5) * 0.5` for its own draw `r`; for draws in `[0, 1)` the increment
lies in `[-0.25, 0.25)`. -/
theorem resolveCollision_spin (rnd : Nat → K) (k : Nat) (obj1 obj2 : PhysicsObject K)
    (dx dy distance : K) (hvn : velAlongNormal obj1 obj2 dx dy distance ≤ 0)
    (hr : ∀ i, 0 ≤ rnd i ∧ rnd i < 1) :
    (obj1.isDragging = false →
      (resolveCollision rnd k obj1 obj2 dx dy distance).1.rotVel
          = obj1.rotVel + (rnd k - 0.5) * 0.5
      ∧ -0.25 ≤ (resolveCollision rnd k obj1 obj2 dx dy distance).1.rotVel - obj1.rotVel
      ∧ (resolveCollision rnd k obj1 obj2 dx dy distance).1.rotVel - obj1.rotVel < 0.25)
    ∧ (obj2.isDragging = false →
      (resolveCollision rnd k obj1 obj2 dx dy distance).2.1.rotVel
          = obj2.rotVel + (rnd (if obj1.isDragging then k else k + 1) - 0.5) * 0.5
      ∧ -0.25 ≤ (resolveCollision rnd k obj1 obj2 dx dy distance).2.1.rotVel - obj2.rotVel
      ∧ (resolveCollision rnd k obj1 obj2 dx dy distance).2.1.rotVel - obj2.rotVel < 0.25) := by
  constructor
  · intro hd1
    rw [resolveCollision_fst_rotVel rnd k obj1 obj2 dx dy distance hd1 hvn]
    obtain ⟨h0, h1⟩ := hr k
    refine ⟨rfl, ?_, ?_⟩ <;> norm_num <;> linarith
  · intro hd2
    rw [resolveCollision_snd_rotVel rnd k obj1 obj2 dx dy distance hd2 hvn]
    obtain ⟨h0, h1⟩ := hr (if obj1.isDragging then k else k + 1)
    refine ⟨rfl, ?_, ?_⟩ <;> norm_num <;> linarith

theorem rndQ_range : ∀ i, 0 ≤ rndQ i ∧ rndQ i < 1 := by
  intro i
  unfold rndQ
  have hpos : (0 : ℚ) < (i : ℚ) + 2 := by positivity
  refine ⟨by positivity, ?_⟩
  rw [div_lt_one hpos]
  have hi : (0 : ℚ) ≤ (i : ℚ) := Nat.cast_nonneg i
  linarith

theorem resolveCollision_spin_witness :
    ((resolveCollision rndQ 2 (card 110 100 (-1) 0) (card 100 100 1 0) 10 0 10).1.rotVel
          = (card 110 100 (-1) 0).rotVel + (rndQ 2 - 0.5) * 0.5
      ∧ -0.25 ≤ (resolveCollision rndQ 2 (card 110 100 (-1) 0) (card 100 100 1 0)
          10 0 10).1.rotVel - (card 110 100 (-1) 0).rotVel
      ∧ (resolveCollision rndQ 2 (card 110 100 (-1) 0) (card 100 100 1 0)
          10 0 10).1.rotVel - (card 110 100 (-1) 0).rotVel < 0.25)
    ∧ ((resolveCollision rndQ 2 (card 110 100 (-1) 0) (card 100 100 1 0) 10 0 10).2.1.rotVel
          = (card 100 100 1 0).rotVel
            + (rndQ (if (card 110 100 (-1) 0).isDragging then 2 else 2 + 1) - 0.5) * 0.5
      ∧ -0.25 ≤ (resolveCollision rndQ 2 (card 110 100 (-1) 0) (card 100 100 1 0)
          10 0 10).2.1.rotVel - (card 100 100 1 0).rotVel
      ∧ (resolveCollision rndQ 2 (card 110 100 (-1) 0) (card 100 100 1 0)
          10 0 10).2.1.rotVel - (card 100 100 1 0).rotVel < 0.25) :=
  ⟨(resolveCollision_spin rndQ 2 (card 110 100 (-1) 0) (card 100 100 1 0) 10 0 10
      (by norm_num [velAlongNormal, card]) rndQ_range).1 rfl,
   (resolveCollision_spin rndQ 2 (card 110 100 (-1) 0) (card 100 100 1 0) 10 0 10
      (by norm_num [velAlongNormal, card]) rndQ_range).2 rfl⟩

/-! ### `update`: the repulsion -/

theorem mouseRepulsion_near (M : Math K) (o : PhysicsObject K) (p : Vec K)
    (hlt : pointerDist M o p < 300) :
    mouseRepulsion M o (some p)
      = { o with vel :=
          ⟨o.vel.x + M.cos (M.atan2 ((o.pos.y + o.height / 2) - p.y)
              ((o.pos.x + o.width / 2) - p.x)) * ((300 - pointerDist M o p) / 300) * 0.2,
           o.vel.y + M.sin (M.atan2 ((o.pos.y + o.height / 2) - p.y)
              ((o.pos.x + o.width / 2) - p.x)) * ((300 - pointerDist M o p) / 300) * 0.2⟩ } := by
  unfold pointerDist at hlt ⊢
  unfold mouseRepulsion
  simp only [hlt, if_true]

/-- C9: for a free object whose centre `c` after integration is at distance
`d` from the pointer `p` with `0 < d < 300`, and a `Math` whose `cos` and
`sin` of `atan2 dy dx` are `dx / d` and `dy / d`, `update` adds to the
velocity, before the damping, the vector `((300 - d) / 300) * 0.2 * (c - p) / d`;
for `d ≥ 300` it adds nothing. -/
theorem update_repulsion (M : Math K) (win : Window K) (o : PhysicsObject K) (p : Vec K)
    (hd : o.isDragging = false) :
    (0 < pointerDist M (integrate o) p → pointerDist M (integrate o) p < 300 →
      M.cos (M.atan2 ((o.pos.y + o.vel.y + o.height / 2) - p.y)
          ((o.pos.x + o.vel.x + o.width / 2) - p.x))
        = ((o.pos.x + o.vel.x + o.width / 2) - p.x) / pointerDist M (integrate o) p →
      M.sin (M.atan2 ((o.pos.y + o.vel.y + o.height / 2) - p.y)
          ((o.pos.x + o.vel.x + o.width / 2) - p.x))
        = ((o.pos.y + o.vel.y + o.height / 2) - p.y) / pointerDist M (integrate o) p →
      o.update M win (some p)
        = wallBouncing win (damping { integrate o with vel :=
            ⟨o.vel.x + ((300 - pointerDist M (integrate o) p) / 300) * 0.2
                * (((o.pos.x + o.vel.x + o.width / 2) - p.x) / pointerDist M (integrate o) p),
             o.vel.y + ((300 - pointerDist M (integrate o) p) / 300) * 0.2
                * (((o.pos.y + o.vel.y + o.height / 2) - p.y)
                    / pointerDist M (integrate o) p)⟩ }))
    ∧ (300 ≤ pointerDist M (integrate o) p →
      o.update M win (some p) = wallBouncing win (damping (integrate o))) := by
  constructor
  · intro _ hlt hcos hsin
    rw [update_of_free M win o (some p) hd, mouseRepulsion_near M (integrate o) p hlt]
    have hcos' : M.cos (M.atan2 (((integrate o).pos.y + (integrate o).height / 2) - p.y)
        (((integrate o).pos.x + (integrate o).width / 2) - p.x))
        = ((o.pos.x + o.vel.x + o.width / 2) - p.x) / pointerDist M (integrate o) p := hcos
    have hsin' : M.sin (M.atan2 (((integrate o).pos.y + (integrate o).height / 2) - p.y)
        (((integrate o).pos.x + (integrate o).width / 2) - p.x))
        = ((o.pos.y + o.vel.y + o.height / 2) - p.y) / pointerDist M (integrate o) p := hsin
    rw [hcos', hsin']
    have hvx : (integrate o).vel.x = o.vel.x := rfl
    have hvy : (integrate o).vel.y = o.vel.y := rfl
    rw [hvx, hvy]
    congr 3
    congr 1 <;> ring
  · intro hfar
    rw [update_of_free M win o (some p) hd, mouseRepulsion_of_far M o (some p) hfar]

theorem tile_near_dist :
    pointerDist mathQ (integrate (tile 100 100 0 0)) ⟨25, 125⟩ = 100 := by
  rw [pointerDist_mathQ_level _ _ (by norm_num [integrate, tile])]
  norm_num [integrate, tile]

theorem tile_far_dist :
    pointerDist mathQ (integrate (tile 100 100 0 0)) ⟨630, 125⟩ = 505 := by
  rw [pointerDist_mathQ_level _ _ (by norm_num [integrate, tile])]
  norm_num [integrate, tile]

theorem update_repulsion_witness :
    (tile 100 100 0 0).update mathQ screen (some ⟨25, 125⟩)
        = wallBouncing screen (damping { integrate (tile 100 100 0 0) with vel :=
            ⟨(tile 100 100 0 0).vel.x
              + ((300 - pointerDist mathQ (integrate (tile 100 100 0 0)) ⟨25, 125⟩) / 300) * 0.2
                * ((((tile 100 100 0 0).pos.x + (tile 100 100 0 0).vel.x
                      + (tile 100 100 0 0).width / 2) - 25)
                    / pointerDist mathQ (integrate (tile 100 100 0 0)) ⟨25, 125⟩),
             (tile 100 100 0 0).vel.y
              + ((300 - pointerDist mathQ (integrate (tile 100 100 0 0)) ⟨25, 125⟩) / 300) * 0.2
                * ((((tile 100 100 0 0).pos.y + (tile 100 100 0 0).vel.y
                      + (tile 100 100 0 0).height / 2) - 125)
                    / pointerDist mathQ (integrate (tile 100 100 0 0)) ⟨25, 125⟩)⟩ })
    ∧ (tile 100 100 0 0).update mathQ screen (some ⟨630, 125⟩)
        = wallBouncing screen (damping (integrate (tile 100 100 0 0))) :=
  ⟨(update_repulsion mathQ screen (tile 100 100 0 0) ⟨25, 125⟩ rfl).1
      (by rw [tile_near_dist]; norm_num) (by rw [tile_near_dist]; norm_num)
      (by rw [tile_near_dist]; norm_num [mathQ, tile])
      (by rw [tile_near_dist]; norm_num [mathQ, tile]),
   (update_repulsion mathQ screen (tile 100 100 0 0) ⟨630, 125⟩ rfl).2
      (by rw [tile_far_dist]; norm_num)⟩

/-- C10: for a free object whose centre after integration is exactly the
pointer, and a `Math` with `sqrt 0 = 0`, `atan2 0 0 = 0`, `cos 0 = 1` and
`sin 0 = 0`, the distance is `0` and `update` pushes along `+x` only: the
velocity that enters the wall check is `(0.99 * (vel.x + 0.2), 0.99 * vel.y)`. -/
theorem update_pointer_at_centre (M : Math K) (win : Window K) (o : PhysicsObject K)
    (p : Vec K) (hd : o.isDragging = false)
    (hx : o.pos.x + o.vel.x + o.width / 2 = p.x) (hy : o.pos.y + o.vel.y + o.height / 2 = p.y)
    (hsqrt : M.sqrt 0 = 0) (hatan : M.atan2 0 0 = 0) (hcos : M.cos 0 = 1)
    (hsin : M.sin 0 = 0) :
    pointerDist M (integrate o) p = 0
    ∧ (mouseRepulsion M (integrate o) (some p)).vel = ⟨o.vel.x + 0.2, o.vel.y⟩
    ∧ (damping (mouseRepulsion M (integrate o) (some p))).vel
        = ⟨0.99 * (o.vel.x + 0.2), 0.99 * o.vel.y⟩
    ∧ o.update M win (some p)
        = wallBouncing win
            { integrate o with vel := ⟨0.99 * (o.vel.x + 0.2), 0.99 * o.vel.y⟩ } := by
  have hx' : (integrate o).pos.x + (integrate o).width / 2 - p.x = 0 := by
    show o.pos.x + o.vel.x + o.width / 2 - p.x = 0
    rw [hx, sub_self]
  have hy' : (integrate o).pos.y + (integrate o).height / 2 - p.y = 0 := by
    show o.pos.y + o.vel.y + o.height / 2 - p.y = 0
    rw [hy, sub_self]
  have hdist : pointerDist M (integrate o) p = 0 := by
    unfold pointerDist
    rw [hx', hy', mul_zero, add_zero, hsqrt]
  have hrep : mouseRepulsion M (integrate o) (some p)
      = { integrate o with vel := ⟨o.vel.x + 0.2, o.vel.y⟩ } := by
    rw [mouseRepulsion_near M (integrate o) p (by rw [hdist]; norm_num), hdist, hx', hy',
      hatan, hcos, hsin]
    have hvx : (integrate o).vel.x = o.vel.x := rfl
    have hvy : (integrate o).vel.y = o.vel.y := rfl
    rw [hvx, hvy]
    congr 2
    · norm_num
    · norm_num
  have hdamp : damping (mouseRepulsion M (integrate o) (some p))
      = { integrate o with vel := ⟨0.99 * (o.vel.x + 0.2), 0.99 * o.vel.y⟩ } := by
    rw [hrep]
    unfold damping
    simp only [mul_comm]
  refine ⟨hdist, ?_, ?_, ?_⟩
  · rw [hrep]
  · rw [hdamp]
  · rw [update_of_free M win o (some p) hd, hdamp]

theorem update_pointer_at_centre_witness :
    pointerDist mathQ (integrate (tile 100 100 3 4)) ⟨128, 129⟩ = 0
    ∧ (mouseRepulsion mathQ (integrate (tile 100 100 3 4)) (some ⟨128, 129⟩)).vel
        = ⟨(tile 100 100 3 4).vel.x + 0.2, (tile 100 100 3 4).vel.y⟩
    ∧ (damping (mouseRepulsion mathQ (integrate (tile 100 100 3 4)) (some ⟨128, 129⟩))).vel
        = ⟨0.99 * ((tile 100 100 3 4).vel.x + 0.2), 0.99 * (tile 100 100 3 4).vel.y⟩
    ∧ (tile 100 100 3 4).update mathQ screen (some ⟨128, 129⟩)
        = wallBouncing screen
            { integrate (tile 100 100 3 4) with vel :=
                ⟨0.99 * ((tile 100 100 3 4).vel.x + 0.2), 0.99 * (tile 100 100 3 4).vel.y⟩ } :=
  update_pointer_at_centre mathQ screen (tile 100 100 3 4) ⟨128, 129⟩ rfl
    (by norm_num [tile]) (by norm_num [tile]) (by norm_num [mathQ, sqrtQ]) rfl rfl rfl

/-! ### Two overlapping objects at rest -/

theorem resolveCollision_fst_shape (rnd : Nat → K) (k : Nat) (obj1 obj2 : PhysicsObject K)
    (dx dy distance : K) :
    (resolveCollision rnd k obj1 obj2 dx dy distance).1.width = obj1.width
    ∧ (resolveCollision rnd k obj1 obj2 dx dy distance).1.height = obj1.height
    ∧ (resolveCollision rnd k obj1 obj2 dx dy distance).1.radius = obj1.radius
    ∧ (resolveCollision rnd k obj1 obj2 dx dy distance).1.mass = obj1.mass
    ∧ (resolveCollision rnd k obj1 obj2 dx dy distance).1.isDragging = obj1.isDragging := by
  unfold resolveCollision
  simp only
  split_ifs <;> exact ⟨rfl, rfl, rfl, rfl, rfl⟩

theorem resolveCollision_snd_shape (rnd : Nat → K) (k : Nat) (obj1 obj2 : PhysicsObject K)
    (dx dy distance : K) :
    (resolveCollision rnd k obj1 obj2 dx dy distance).2.1.width = obj2.width
    ∧ (resolveCollision rnd k obj1 obj2 dx dy distance).2.1.height = obj2.height
    ∧ (resolveCollision rnd k obj1 obj2 dx dy distance).2.1.radius = obj2.radius
    ∧ (resolveCollision rnd k obj1 obj2 dx dy distance).2.1.mass = obj2.mass
    ∧ (resolveCollision rnd k obj1 obj2 dx dy distance).2.1.isDragging = obj2.isDragging := by
  unfold resolveCollision
  simp only
  split_ifs <;> exact ⟨rfl, rfl, rfl, rfl, rfl⟩

theorem resolveCollision_fst_pos (rnd : Nat → K) (k : Nat) (obj1 obj2 : PhysicsObject K)
    (dx dy distance : K) (hd1 : obj1.isDragging = false)
    (hvn : velAlongNormal obj1 obj2 dx dy distance ≤ 0)
    (hov : 0 < (obj1.radius + obj2.radius) * 0.8 - distance) :
    (resolveCollision rnd k obj1 obj2 dx dy distance).1.pos
      = ⟨obj1.pos.x + ((obj1.radius + obj2.radius) * 0.8 - distance)
            / (1 / obj1.mass + 1 / obj2.mass) * (dx / distance) * 0.2 * (1 / obj1.mass),
         obj1.pos.y + ((obj1.radius + obj2.radius) * 0.8 - distance)
            / (1 / obj1.mass + 1 / obj2.mass) * (dy / distance) * 0.2 * (1 / obj1.mass)⟩ := by
  unfold velAlongNormal at hvn
  unfold resolveCollision
  simp only [hd1, not_lt.mpr hvn, hov, gt_iff_lt, if_false, if_true, Bool.false_eq_true]

theorem resolveCollision_snd_pos (rnd : Nat → K) (k : Nat) (obj1 obj2 : PhysicsObject K)
    (dx dy distance : K) (hd2 : obj2.isDragging = false)
    (hvn : velAlongNormal obj1 obj2 dx dy distance ≤ 0)
    (hov : 0 < (obj1.radius + obj2.radius) * 0.8 - distance) :
    (resolveCollision rnd k obj1 obj2 dx dy distance).2.1.pos
      = ⟨obj2.pos.x - ((obj1.radius + obj2.radius) * 0.8 - distance)
            / (1 / obj1.mass + 1 / obj2.mass) * (dx / distance) * 0.2 * (1 / obj2.mass),
         obj2.pos.y - ((obj1.radius + obj2.radius) * 0.8 - distance)
            / (1 / obj1.mass + 1 / obj2.mass) * (dy / distance) * 0.2 * (1 / obj2.mass)⟩ := by
  unfold velAlongNormal at hvn
  unfold resolveCollision
  simp only [hd2, not_lt.mpr hvn, hov, gt_iff_lt, if_false, if_true, Bool.false_eq_true]

theorem collidePair_length (M : Math K) (rnd : Nat → K) (i j : Nat)
    (eng : AntigravityEngine K) :
    (collidePair M rnd i j eng).objects.length = eng.objects.length := by
  unfold collidePair
  split
  · simp only
    split_ifs
    · simp only [List.length_set]
    · rfl
  · rfl

theorem collidePair_mousePos (M : Math K) (rnd : Nat → K) (i j : Nat)
    (eng : AntigravityEngine K) : (collidePair M rnd i j eng).mousePos = eng.mousePos := by
  unfold collidePair
  split
  · simp only
    split_ifs <;> rfl
  · rfl

theorem checkCollisions_pair (M : Math K) (rnd : Nat → K) (eng : AntigravityEngine K)
    (a b : PhysicsObject K) (h : eng.objects = [a, b]) :
    checkCollisions M rnd eng = collidePair M rnd 0 1 eng := by
  have hlen : (collidePair M rnd 0 1 eng).objects.length = 2 := by
    rw [collidePair_length, h]
    rfl
  unfold checkCollisions
  rw [h]
  simp [List.range_succ, h, hlen, List.range']

theorem restingPair_velAlongNormal (a b : PhysicsObject K) (d dx dy distance : K)
    (h : restingPair a b d) : velAlongNormal a b dx dy distance = 0 := by
  obtain ⟨_, _, hva, hvb, _⟩ := h
  unfold velAlongNormal
  rw [hva, hvb]
  simp

theorem resolveCollision_restingPair (rnd : Nat → K) (k : Nat) (a b : PhysicsObject K) (d : K)
    (h : restingPair a b d) (hd0 : 0 < d) (hd48 : d < 48) :
    movedBy a (resolveCollision rnd k a b (centreDelta a b).x (centreDelta a b).y d).1
        (0.1 * (48 - d) * ((centreDelta a b).x / d)) (0.1 * (48 - d) * ((centreDelta a b).y / d))
    ∧ movedBy b (resolveCollision rnd k a b (centreDelta a b).x (centreDelta a b).y d).2.1
        (-(0.1 * (48 - d) * ((centreDelta a b).x / d)))
        (-(0.1 * (48 - d) * ((centreDelta a b).y / d))) := by
  have hvn0 := restingPair_velAlongNormal a b d (centreDelta a b).x (centreDelta a b).y d h
  have hvn : velAlongNormal a b (centreDelta a b).x (centreDelta a b).y d ≤ 0 := hvn0.le
  obtain ⟨hfa, hfb, hva, hvb, hra, hrb, hm, hmpos, _⟩ := h
  have hmb : 0 < b.mass := hm ▸ hmpos
  have hov : 0 < (a.radius + b.radius) * 0.8 - d := by
    rw [hra, hrb]
    norm_num
    linarith
  have himp : impulse a b (centreDelta a b).x (centreDelta a b).y d = 0 := by
    unfold impulse
    rw [hvn0]
    simp
  obtain ⟨sa1, sa2, sa3, sa4, sa5⟩ :=
    resolveCollision_fst_shape rnd k a b (centreDelta a b).x (centreDelta a b).y d
  obtain ⟨sb1, sb2, sb3, sb4, sb5⟩ :=
    resolveCollision_snd_shape rnd k a b (centreDelta a b).x (centreDelta a b).y d
  have hma : a.mass ≠ 0 := hmpos.ne.symm
  refine ⟨⟨?_, ?_, sa1, sa2, sa3, sa4, sa5⟩, ⟨?_, ?_, sb1, sb2, sb3, sb4, sb5⟩⟩
  · rw [resolveCollision_fst_pos rnd k a b _ _ d hfa hvn hov, hra, hrb, ← hm]
    simp only [Vec.mk.injEq, add_right_inj]
    constructor <;> (field_simp; ring)
  · rw [resolveCollision_fst_vel rnd k a b _ _ d hfa hvn, himp, hva]
    simp
  · rw [resolveCollision_snd_pos rnd k a b _ _ d hfb hvn hov, hra, hrb, ← hm]
    simp only [Vec.mk.injEq, sub_eq_add_neg, add_right_inj, neg_inj]
    constructor <;> (field_simp; ring)
  · rw [resolveCollision_snd_vel rnd k a b _ _ d hfb hvn, himp, hvb]
    simp

theorem centreDistance_restingPair (M : Math K) (hsqrt : ∀ x : K, M.sqrt (x * x) = |x|)
    (a b : PhysicsObject K) (d : K) (h : restingPair a b d) (hd0 : 0 < d) :
    centreDistance M a b = d := by
  unfold centreDistance
  rw [h.2.2.2.2.2.2.2.2, hsqrt, abs_of_pos hd0]

theorem collidePair_restingPair (M : Math K) (hsqrt : ∀ x : K, M.sqrt (x * x) = |x|)
    (rnd : Nat → K) (eng : AntigravityEngine K) (a b : PhysicsObject K) (d : K)
    (hobjs : eng.objects = [a, b]) (h : restingPair a b d) (hd0 : 0 < d) (hd48 : d < 48) :
    (collidePair M rnd 0 1 eng).objects
      = [(resolveCollision rnd eng.drawn a b (centreDelta a b).x (centreDelta a b).y d).1,
         (resolveCollision rnd eng.drawn a b (centreDelta a b).x (centreDelta a b).y d).2.1] := by
  have hdist := centreDistance_restingPair M hsqrt a b d h hd0
  unfold centreDistance centreDelta at hdist
  simp only at hdist
  have hlt : d < (a.radius + b.radius) * 0.8 := by
    rw [h.2.2.2.2.1, h.2.2.2.2.2.1]
    norm_num
    exact hd48
  unfold collidePair
  simp only [hobjs, List.getElem?_cons_zero, List.getElem?_cons_succ, hdist, hlt, if_true,
    centreDelta, List.set_cons_zero, List.set_cons_succ]

theorem wallBouncing_inside (win : Window K) (o : PhysicsObject K)
    (hx0 : 0 ≤ o.pos.x) (hx1 : o.pos.x + o.width ≤ win.innerWidth)
    (hy0 : 0 ≤ o.pos.y) (hy1 : o.pos.y + o.height ≤ win.innerHeight) :
    wallBouncing win o = o := by
  unfold wallBouncing
  simp only [not_lt.mpr hx0, not_lt.mpr hx1, not_lt.mpr hy0, not_lt.mpr hy1, gt_iff_lt,
    if_false]

theorem update_of_undisturbed (M : Math K) (win : Window K) (p : Vec K) (o : PhysicsObject K)
    (hfree : o.isDragging = false) (hu : undisturbed M win p o) :
    o.update M win (some p) = damping (integrate o) := by
  obtain ⟨hfar, hx0, hx1, hy0, hy1⟩ := hu
  rw [update_of_free M win o (some p) hfree, mouseRepulsion_of_far M o (some p) hfar]
  exact wallBouncing_inside win _ hx0 hx1 hy0 hy1

theorem movedBy_update (M : Math K) (win : Window K) (p : Vec K) (o o' : PhysicsObject K)
    (sx sy : K) (hm : movedBy o o' sx sy) (hfree : o.isDragging = false)
    (hv : o.vel = ⟨0, 0⟩) (hu : undisturbed M win p o') :
    movedBy o (o'.update M win (some p)) sx sy := by
  obtain ⟨hp, hvel, hw, hh, hr, hma, hdr⟩ := hm
  rw [update_of_undisturbed M win p o' (hdr.trans hfree) hu]
  unfold damping integrate
  refine ⟨?_, ?_, hw, hh, hr, hma, hdr⟩
  · simp only [hvel, hv, hp, add_zero]
  · simp only [hvel, hv, zero_mul]

theorem restingPair_moved (a b a' b' : PhysicsObject K) (d : K) (h : restingPair a b d)
    (hd0 : 0 < d)
    (ha : movedBy a a' (0.1 * (48 - d) * ((centreDelta a b).x / d))
      (0.1 * (48 - d) * ((centreDelta a b).y / d)))
    (hb : movedBy b b' (-(0.1 * (48 - d) * ((centreDelta a b).x / d)))
      (-(0.1 * (48 - d) * ((centreDelta a b).y / d)))) :
    restingPair a' b' (d + 0.2 * (48 - d)) := by
  obtain ⟨hfa, hfb, hva, hvb, hra, hrb, hm, hmpos, hdd⟩ := h
  obtain ⟨pa, va, wa, ha', ra, ma, da⟩ := ha
  obtain ⟨pb, vb, wb, hb', rb, mb, db⟩ := hb
  have hd : d ≠ 0 := hd0.ne.symm
  refine ⟨da.trans hfa, db.trans hfb, va.trans hva, vb.trans hvb, ra.trans hra, rb.trans hrb,
    by rw [ma, mb, hm], by rw [ma]; exact hmpos, ?_⟩
  have hx : (centreDelta a' b').x = (centreDelta a b).x * ((d + 0.2 * (48 - d)) / d) := by
    have e1 : (centreDelta a' b').x
        = (a'.pos.x + a'.width / 2) - (b'.pos.x + b'.width / 2) := rfl
    have e2 : (centreDelta a b).x = (a.pos.x + a.width / 2) - (b.pos.x + b.width / 2) := rfl
    rw [e1, pa, pb, wa, wb]
    simp only
    rw [e2]
    field_simp
    ring
  have hy : (centreDelta a' b').y = (centreDelta a b).y * ((d + 0.2 * (48 - d)) / d) := by
    have e1 : (centreDelta a' b').y
        = (a'.pos.y + a'.height / 2) - (b'.pos.y + b'.height / 2) := rfl
    have e2 : (centreDelta a b).y = (a.pos.y + a.height / 2) - (b.pos.y + b.height / 2) := rfl
    rw [e1, pa, pb, ha', hb']
    simp only
    rw [e2]
    field_simp
    ring
  rw [hx, hy]
  have e : (centreDelta a b).x * ((d + 0.2 * (48 - d)) / d)
        * ((centreDelta a b).x * ((d + 0.2 * (48 - d)) / d))
      + (centreDelta a b).y * ((d + 0.2 * (48 - d)) / d)
        * ((centreDelta a b).y * ((d + 0.2 * (48 - d)) / d))
      = ((centreDelta a b).x * (centreDelta a b).x + (centreDelta a b).y * (centreDelta a b).y)
        * (((d + 0.2 * (48 - d)) / d) * ((d + 0.2 * (48 - d)) / d)) := by ring
  rw [e, hdd]
  field_simp

theorem animate_restingPair (M : Math K) (hsqrt : ∀ x : K, M.sqrt (x * x) = |x|)
    (rnd : Nat → K) (win : Window K) (eng : AntigravityEngine K) (a b : PhysicsObject K)
    (d : K) (hobjs : eng.objects = [a, b]) (h : restingPair a b d) (hd0 : 0 < d)
    (hd48 : d < 48)
    (hu : ∀ o ∈ (checkCollisions M rnd eng).objects, undisturbed M win eng.mousePos o) :
    ∃ a' b', (animate M rnd win eng).objects = [a', b']
      ∧ movedBy a a' (0.1 * (48 - d) * ((centreDelta a b).x / d))
          (0.1 * (48 - d) * ((centreDelta a b).y / d))
      ∧ movedBy b b' (-(0.1 * (48 - d) * ((centreDelta a b).x / d)))
          (-(0.1 * (48 - d) * ((centreDelta a b).y / d))) := by
  have hcc : (checkCollisions M rnd eng).objects = _ :=
    (congrArg AntigravityEngine.objects (checkCollisions_pair M rnd eng a b hobjs)).trans
      (collidePair_restingPair M hsqrt rnd eng a b d hobjs h hd0 hd48)
  have hmp : (checkCollisions M rnd eng).mousePos = eng.mousePos := by
    rw [checkCollisions_pair M rnd eng a b hobjs, collidePair_mousePos]
  obtain ⟨ma, mb⟩ := resolveCollision_restingPair rnd eng.drawn a b d h hd0 hd48
  rw [hcc] at hu
  have hua := hu _ (List.mem_cons_self _ _)
  have hub := hu _ (List.mem_cons_of_mem _ (List.mem_cons_self _ _))
  refine ⟨_, _, ?_, movedBy_update M win eng.mousePos a _ _ _ ma h.1 h.2.2.1 hua,
    movedBy_update M win eng.mousePos b _ _ _ mb h.2.1 h.2.2.2.1 hub⟩
  unfold animate
  simp only [hcc, hmp, List.map_cons, List.map_nil]

theorem frames_restingPair (M : Math K) (hsqrt : ∀ x : K, M.sqrt (x * x) = |x|)
    (rnd : Nat → K) : ∀ (wins : List (Window K)) (eng : AntigravityEngine K)
    (a b : PhysicsObject K) (d : K), eng.objects = [a, b] → restingPair a b d → 0 < d →
    d < 48 → undisturbedAll M rnd wins eng →
    ∃ a' b', (frames M rnd wins eng).objects = [a', b']
      ∧ restingPair a' b' (48 - (48 - d) * 0.8 ^ wins.length) := by
  intro wins
  induction wins with
  | nil =>
    intro eng a b d hobjs h _ _ _
    refine ⟨a, b, hobjs, ?_⟩
    simpa using h
  | cons win wins ih =>
    intro eng a b d hobjs h hd0 hd48 hu
    obtain ⟨hnow, hrest⟩ := hu
    obtain ⟨a', b', hobjs', ma, mb⟩ :=
      animate_restingPair M hsqrt rnd win eng a b d hobjs h hd0 hd48 hnow
    have h' := restingPair_moved a b a' b' d h hd0 ma mb
    obtain ⟨a'', b'', hfin, hres⟩ := ih (animate M rnd win eng) a' b' (d + 0.2 * (48 - d))
      hobjs' h' (by norm_num; linarith) (by norm_num; linarith) hrest
    refine ⟨a'', b'', hfin, ?_⟩
    have e : (48 : K) - (48 - (d + 0.2 * (48 - d))) * 0.8 ^ wins.length
        = 48 - (48 - d) * 0.8 ^ (win :: wins).length := by
      rw [List.length_cons, pow_succ]
      ring
    rw [← e]
    exact hres

theorem pairDemo_lined : lined pairDemo := by
  refine ⟨disc 100 100, disc 110 100, 0, rfl, rfl, ?_, le_refl _, by norm_num, ?_, ?_,
    rfl, rfl, rfl, rfl⟩
  · norm_num [restingPair, disc, centreDelta]
  · norm_num [disc]
  · norm_num [disc]

theorem lined_step (eng : AntigravityEngine ℚ) (h : lined eng) :
    (∀ o ∈ (checkCollisions mathQ rndQ eng).objects, undisturbed mathQ wide eng.mousePos o)
    ∧ lined (animate mathQ rndQ wide eng) := by
  obtain ⟨a, b, s, hobjs, hmouse, hrest, hs0, hs19, hpa, hpb, hwa, hha, hwb, hhb⟩ := h
  have hd0 : (0 : ℚ) < 10 + 2 * s := by linarith
  have hd48 : 10 + 2 * s < (48 : ℚ) := by linarith
  have hcx : (centreDelta a b).x = -(10 + 2 * s) := by
    unfold centreDelta
    simp only [hpa, hpb, hwa, hwb]
    ring
  have hcy : (centreDelta a b).y = 0 := by
    unfold centreDelta
    simp only [hpa, hpb, hha, hhb]
    ring
  have hnx : (centreDelta a b).x / (10 + 2 * s) = -1 := by
    rw [hcx, neg_div, div_self hd0.ne.symm]
  have hny : (centreDelta a b).y / (10 + 2 * s) = 0 := by
    rw [hcy, zero_div]
  have hcc : (checkCollisions mathQ rndQ eng).objects = _ :=
    (congrArg AntigravityEngine.objects (checkCollisions_pair mathQ rndQ eng a b hobjs)).trans
      (collidePair_restingPair mathQ sqrtQ_mul_self rndQ eng a b _ hobjs hrest hd0 hd48)
  obtain ⟨ma, mb⟩ := resolveCollision_restingPair rndQ eng.drawn a b _ hrest hd0 hd48
  rw [hnx, hny] at ma mb
  have hu : ∀ o ∈ (checkCollisions mathQ rndQ eng).objects,
      undisturbed mathQ wide eng.mousePos o := by
    rw [hcc, hmouse]
    intro o ho
    simp only [List.mem_cons, List.mem_singleton, List.not_mem_nil, or_false] at ho
    rcases ho with rfl | rfl
    · obtain ⟨p, v, w, hh, _⟩ := ma
      unfold undisturbed
      rw [pointerDist_mathQ_level _ _ (by
        simp only [integrate, p, v, hh, hha, hrest.2.2.1, hpa]
        norm_num)]
      simp only [integrate, p, v, w, hh, hwa, hha, hrest.2.2.1, hpa, wide]
      refine ⟨?_, ?_, ?_, ?_, ?_⟩
      · rw [abs_of_neg (by linarith)]
        linarith
      · linarith
      · linarith
      · norm_num
      · norm_num
    · obtain ⟨p, v, w, hh, _⟩ := mb
      unfold undisturbed
      rw [pointerDist_mathQ_level _ _ (by
        simp only [integrate, p, v, hh, hhb, hrest.2.2.2.1, hpb]
        norm_num)]
      simp only [integrate, p, v, w, hh, hwb, hhb, hrest.2.2.2.1, hpb, wide]
      refine ⟨?_, ?_, ?_, ?_, ?_⟩
      · rw [abs_of_neg (by linarith)]
        linarith
      · linarith
      · linarith
      · norm_num
      · norm_num
  refine ⟨hu, ?_⟩
  obtain ⟨a', b', hobjs', ma', mb'⟩ :=
    animate_restingPair mathQ sqrtQ_mul_self rndQ wide eng a b _ hobjs hrest hd0 hd48 hu
  have hrest' := restingPair_moved a b a' b' _ hrest hd0 ma' mb'
  rw [hnx, hny] at ma' mb'
  have hmp : (animate mathQ rndQ wide eng).mousePos = ⟨1000, 130⟩ := by
    unfold animate
    simp only
    rw [checkCollisions_pair mathQ rndQ eng a b hobjs, collidePair_mousePos, hmouse]
  refine ⟨a', b', 0.8 * s + 3.8, hobjs', hmp, ?_, by linarith, by linarith, ?_, ?_,
    ma'.2.2.1.trans hwa, ma'.2.2.2.1.trans hha, mb'.2.2.1.trans hwb, mb'.2.2.2.1.trans hhb⟩
  · have e : (10 : ℚ) + 2 * s + 0.2 * (48 - (10 + 2 * s)) = 10 + 2 * (0.8 * s + 3.8) := by
      ring
    rw [← e]
    exact hrest'
  · rw [ma'.1, hpa]
    simp only [Vec.mk.injEq]
    constructor <;> ring
  · rw [mb'.1, hpb]
    simp only [Vec.mk.injEq]
    constructor <;> ring

theorem lined_undisturbedAll : ∀ (n : Nat) (eng : AntigravityEngine ℚ), lined eng →
    undisturbedAll mathQ rndQ (List.replicate n wide) eng := by
  intro n
  induction n with
  | zero => intro eng _; exact trivial
  | succ n ih =>
    intro eng h
    exact ⟨(lined_step eng h).1, ih _ (lined_step eng h).2⟩

theorem pairDemo_restingPair : restingPair (disc 100 100) (disc 110 100) 10 := by
  norm_num [restingPair, disc, centreDelta]

theorem restingPair_distance_lt (M : Math K) (hsqrt : ∀ x : K, M.sqrt (x * x) = |x|)
    (a b : PhysicsObject K) (n : Nat) (h : restingPair a b (48 - 38 * 0.8 ^ n)) :
    centreDistance M a b = 48 - 38 * 0.8 ^ n ∧ centreDistance M a b < 48 := by
  have hp : (0 : K) < 0.8 ^ n := pow_pos (by norm_num) n
  have hle : (0.8 : K) ^ n ≤ 1 := pow_le_one₀ (by norm_num) (by norm_num)
  have hd0 : (0 : K) < 48 - 38 * 0.8 ^ n := by linarith
  rw [centreDistance_restingPair M hsqrt a b _ h hd0]
  exact ⟨rfl, by linarith⟩

/-- C7, as stated, fails: two free 60 by 60 discs at rest (radius 30, equal
mass, `minDistance = 48`) with centres 10 apart, in a run in which no frame
has pointer repulsion or wall contact, never reach a centre distance of 48 or
more: there is no number of frames after which `d ≥ minDistance`. -/
theorem resting_pair_never_clear :
    restingPair (disc 100 100) (disc 110 100) 10
    ∧ (∀ n, undisturbedAll mathQ rndQ (List.replicate n wide) pairDemo)
    ∧ ¬ ∃ (n : Nat) (a b : PhysicsObject ℚ),
        (frames mathQ rndQ (List.replicate n wide) pairDemo).objects = [a, b]
        ∧ 48 ≤ centreDistance mathQ a b := by
  refine ⟨pairDemo_restingPair, fun n => lined_undisturbedAll n pairDemo pairDemo_lined, ?_⟩
  rintro ⟨n, a, b, hobjs, hge⟩
  obtain ⟨a', b', hobjs', hrest⟩ := frames_restingPair mathQ sqrtQ_mul_self rndQ
    (List.replicate n wide) pairDemo (disc 100 100) (disc 110 100) 10 rfl pairDemo_restingPair
    (by norm_num) (by norm_num) (lined_undisturbedAll n pairDemo pairDemo_lined)
  rw [hobjs] at hobjs'
  simp only [List.cons.injEq, and_true] at hobjs'
  obtain ⟨rfl, rfl⟩ := hobjs'
  have e : (48 : ℚ) - (48 - 10) * 0.8 ^ (List.replicate n wide).length = 48 - 38 * 0.8 ^ n := by
    rw [List.length_replicate]
    norm_num
  rw [e] at hrest
  have hlt := (restingPair_distance_lt mathQ sqrtQ_mul_self a b n hrest).2
  linarith

/-- C7, amended: for two free objects at rest, of radius 30 each and of equal
positive mass, with centres 10 apart, and a `Math` whose `sqrt` returns `|x|`
on `x * x`, in a run of frames without pointer repulsion and wall contact
the velocities stay zero and the centre distance after `n` frames is
`48 - 38 * 0.8 ^ n`: the overlap shrinks by the factor `0.8` per frame and the
distance stays strictly below `minDistance = 48`. -/
theorem resting_pair_overlap_decay (M : Math K) (hsqrt : ∀ x : K, M.sqrt (x * x) = |x|)
    (rnd : Nat → K) (wins : List (Window K)) (eng : AntigravityEngine K)
    (a b : PhysicsObject K) (hobjs : eng.objects = [a, b]) (h : restingPair a b 10)
    (hu : undisturbedAll M rnd wins eng) :
    ∃ a' b', (frames M rnd wins eng).objects = [a', b']
      ∧ a'.vel = ⟨0, 0⟩ ∧ b'.vel = ⟨0, 0⟩
      ∧ centreDistance M a' b' = 48 - 38 * 0.8 ^ wins.length
      ∧ centreDistance M a' b' < 48 := by
  obtain ⟨a', b', hobjs', hrest⟩ := frames_restingPair M hsqrt rnd wins eng a b 10 hobjs h
    (by norm_num) (by norm_num) hu
  have e : (48 : K) - (48 - 10) * 0.8 ^ wins.length = 48 - 38 * 0.8 ^ wins.length := by
    norm_num
  rw [e] at hrest
  obtain ⟨h1, h2⟩ := restingPair_distance_lt M hsqrt a' b' wins.length hrest
  exact ⟨a', b', hobjs', hrest.2.2.1, hrest.2.2.2.1, h1, h2⟩

theorem resting_pair_overlap_decay_witness :
    ∃ a' b', (frames mathQ rndQ (List.replicate 3 wide) pairDemo).objects = [a', b']
      ∧ a'.vel = ⟨0, 0⟩ ∧ b'.vel = ⟨0, 0⟩
      ∧ centreDistance mathQ a' b' = 48 - 38 * 0.8 ^ (List.replicate 3 wide).length
      ∧ centreDistance mathQ a' b' < 48 :=
  resting_pair_overlap_decay mathQ sqrtQ_mul_self rndQ (List.replicate 3 wide) pairDemo
    (disc 100 100) (disc 110 100) rfl pairDemo_restingPair
    (lined_undisturbedAll 3 pairDemo pairDemo_lined)

/-! ### `resolveCollision`: the positional correction -/

theorem centreDelta_resolveCollision (rnd : Nat → K) (k : Nat) (obj1 obj2 : PhysicsObject K)
    (d : K) (hd1 : obj1.isDragging = false) (hd2 : obj2.isDragging = false)
    (hm1 : 0 < obj1.mass) (hm2 : 0 < obj2.mass) (hd0 : 0 < d)
    (hlt : d < (obj1.radius + obj2.radius) * 0.8)
    (hvn : velAlongNormal obj1 obj2 (centreDelta obj1 obj2).x (centreDelta obj1 obj2).y d ≤ 0) :
    centreDelta
        (resolveCollision rnd k obj1 obj2 (centreDelta obj1 obj2).x (centreDelta obj1 obj2).y d).1
        (resolveCollision rnd k obj1 obj2 (centreDelta obj1 obj2).x
          (centreDelta obj1 obj2).y d).2.1
      = ⟨(centreDelta obj1 obj2).x
            * ((d + 0.2 * ((obj1.radius + obj2.radius) * 0.8 - d)) / d),
         (centreDelta obj1 obj2).y
            * ((d + 0.2 * ((obj1.radius + obj2.radius) * 0.8 - d)) / d)⟩ := by
  have hov : 0 < (obj1.radius + obj2.radius) * 0.8 - d := by linarith
  have hd : d ≠ 0 := hd0.ne.symm
  have h1 : obj1.mass ≠ 0 := hm1.ne.symm
  have h2 : obj2.mass ≠ 0 := hm2.ne.symm
  have hs : obj1.mass + obj2.mass ≠ 0 := (add_pos hm1 hm2).ne.symm
  have hs' : obj2.mass + obj1.mass ≠ 0 := (add_pos hm2 hm1).ne.symm
  obtain ⟨w1, hh1, _⟩ := resolveCollision_fst_shape rnd k obj1 obj2
    (centreDelta obj1 obj2).x (centreDelta obj1 obj2).y d
  obtain ⟨w2, hh2, _⟩ := resolveCollision_snd_shape rnd k obj1 obj2
    (centreDelta obj1 obj2).x (centreDelta obj1 obj2).y d
  have p1 := resolveCollision_fst_pos rnd k obj1 obj2 _ _ d hd1 hvn hov
  have p2 := resolveCollision_snd_pos rnd k obj1 obj2 _ _ d hd2 hvn hov
  have ex : (centreDelta obj1 obj2).x
      = (obj1.pos.x + obj1.width / 2) - (obj2.pos.x + obj2.width / 2) := rfl
  have ey : (centreDelta obj1 obj2).y
      = (obj1.pos.y + obj1.height / 2) - (obj2.pos.y + obj2.height / 2) := rfl
  generalize (centreDelta obj1 obj2).x = cx at p1 p2 w1 w2 hh1 hh2 ex ⊢
  generalize (centreDelta obj1 obj2).y = cy at p1 p2 w1 w2 hh1 hh2 ey ⊢
  unfold centreDelta
  rw [p1, p2, w1, w2, hh1, hh2]
  simp only [Vec.mk.injEq]
  constructor
  · rw [ex]
    field_simp
    ring
  · rw [ey]
    field_simp
    ring

/-- C11: for two free objects with positive masses (any ratio), centre distance
`d` with `0 < d < minDistance = 0.8 * (r1 + r2)` and `vn ≤ 0`, `resolveCollision`
scales the centre-to-centre vector by `(d + 0.2 * (minDistance - d)) / d`: the
centres move apart along the normal, the centre distance becomes
`d + 0.2 * (minDistance - d)`, and the overlap becomes `0.8` times what it was. -/
theorem resolveCollision_overlap (M : Math K) (hsqrt : ∀ x : K, M.sqrt (x * x) = |x|)
    (rnd : Nat → K) (k : Nat) (obj1 obj2 : PhysicsObject K) (d : K)
    (hd1 : obj1.isDragging = false) (hd2 : obj2.isDragging = false)
    (hm1 : 0 < obj1.mass) (hm2 : 0 < obj2.mass) (hd0 : 0 < d)
    (hnorm : (centreDelta obj1 obj2).x * (centreDelta obj1 obj2).x
      + (centreDelta obj1 obj2).y * (centreDelta obj1 obj2).y = d * d)
    (hlt : d < (obj1.radius + obj2.radius) * 0.8)
    (hvn : velAlongNormal obj1 obj2 (centreDelta obj1 obj2).x (centreDelta obj1 obj2).y d ≤ 0) :
    centreDelta
        (resolveCollision rnd k obj1 obj2 (centreDelta obj1 obj2).x (centreDelta obj1 obj2).y d).1
        (resolveCollision rnd k obj1 obj2 (centreDelta obj1 obj2).x
          (centreDelta obj1 obj2).y d).2.1
      = ⟨(centreDelta obj1 obj2).x
            * ((d + 0.2 * ((obj1.radius + obj2.radius) * 0.8 - d)) / d),
         (centreDelta obj1 obj2).y
            * ((d + 0.2 * ((obj1.radius + obj2.radius) * 0.8 - d)) / d)⟩
    ∧ centreDistance M
        (resolveCollision rnd k obj1 obj2 (centreDelta obj1 obj2).x (centreDelta obj1 obj2).y d).1
        (resolveCollision rnd k obj1 obj2 (centreDelta obj1 obj2).x
          (centreDelta obj1 obj2).y d).2.1
      = d + 0.2 * ((obj1.radius + obj2.radius) * 0.8 - d)
    ∧ ((resolveCollision rnd k obj1 obj2 (centreDelta obj1 obj2).x
            (centreDelta obj1 obj2).y d).1.radius
          + (resolveCollision rnd k obj1 obj2 (centreDelta obj1 obj2).x
            (centreDelta obj1 obj2).y d).2.1.radius) * 0.8
        - centreDistance M
          (resolveCollision rnd k obj1 obj2 (centreDelta obj1 obj2).x
            (centreDelta obj1 obj2).y d).1
          (resolveCollision rnd k obj1 obj2 (centreDelta obj1 obj2).x
            (centreDelta obj1 obj2).y d).2.1
      = 0.8 * ((obj1.radius + obj2.radius) * 0.8 - d) := by
  have hdelta := centreDelta_resolveCollision rnd k obj1 obj2 d hd1 hd2 hm1 hm2 hd0 hlt hvn
  have hd : d ≠ 0 := hd0.ne.symm
  have hnew : (0 : K) < d + 0.2 * ((obj1.radius + obj2.radius) * 0.8 - d) := by
    have : (0 : K) < 0.2 * ((obj1.radius + obj2.radius) * 0.8 - d) :=
      mul_pos (by norm_num) (by linarith)
    linarith
  have hdist : centreDistance M
        (resolveCollision rnd k obj1 obj2 (centreDelta obj1 obj2).x (centreDelta obj1 obj2).y d).1
        (resolveCollision rnd k obj1 obj2 (centreDelta obj1 obj2).x
          (centreDelta obj1 obj2).y d).2.1
      = d + 0.2 * ((obj1.radius + obj2.radius) * 0.8 - d) := by
    unfold centreDistance
    rw [hdelta]
    simp only
    have e : (centreDelta obj1 obj2).x
          * ((d + 0.2 * ((obj1.radius + obj2.radius) * 0.8 - d)) / d)
          * ((centreDelta obj1 obj2).x
            * ((d + 0.2 * ((obj1.radius + obj2.radius) * 0.8 - d)) / d))
        + (centreDelta obj1 obj2).y
          * ((d + 0.2 * ((obj1.radius + obj2.radius) * 0.8 - d)) / d)
          * ((centreDelta obj1 obj2).y
            * ((d + 0.2 * ((obj1.radius + obj2.radius) * 0.8 - d)) / d))
        = (d + 0.2 * ((obj1.radius + obj2.radius) * 0.8 - d))
          * (d + 0.2 * ((obj1.radius + obj2.radius) * 0.8 - d)) := by
      have e' : ∀ c : K, (centreDelta obj1 obj2).x * c * ((centreDelta obj1 obj2).x * c)
          + (centreDelta obj1 obj2).y * c * ((centreDelta obj1 obj2).y * c)
          = ((centreDelta obj1 obj2).x * (centreDelta obj1 obj2).x
            + (centreDelta obj1 obj2).y * (centreDelta obj1 obj2).y) * (c * c) := fun c => by
        ring
      rw [e', hnorm]
      field_simp
    rw [e, hsqrt, abs_of_pos hnew]
  refine ⟨hdelta, hdist, ?_⟩
  rw [hdist, (resolveCollision_fst_shape rnd k obj1 obj2 _ _ d).2.2.1,
    (resolveCollision_snd_shape rnd k obj1 obj2 _ _ d).2.2.1]
  ring

theorem resolveCollision_overlap_witness :
    centreDistance mathQ
        (resolveCollision rndQ 0 (card 106 108 (-1) 0) (tile 95 87.5 1 0)
          (centreDelta (card 106 108 (-1) 0) (tile 95 87.5 1 0)).x
          (centreDelta (card 106 108 (-1) 0) (tile 95 87.5 1 0)).y 10).1
        (resolveCollision rndQ 0 (card 106 108 (-1) 0) (tile 95 87.5 1 0)
          (centreDelta (card 106 108 (-1) 0) (tile 95 87.5 1 0)).x
          (centreDelta (card 106 108 (-1) 0) (tile 95 87.5 1 0)).y 10).2.1
      = 10 + 0.2 * (((card 106 108 (-1) 0).radius + (tile 95 87.5 1 0).radius) * 0.8 - 10) :=
  (resolveCollision_overlap mathQ sqrtQ_mul_self rndQ 0 (card 106 108 (-1) 0)
    (tile 95 87.5 1 0) 10 rfl rfl (by norm_num [card]) (by norm_num [tile]) (by norm_num)
    (by norm_num [centreDelta, card, tile]) (by norm_num [card, tile])
    (by norm_num [velAlongNormal, centreDelta, card, tile])).2.1

/-! ### The drag handlers -/

/-- C12: `mousedown` at the pointer `p0` followed by `mousemove` at any pointer
`p1` puts the object at `pos + (p1 - p0)`, so `mousemove` at `p0` itself leaves
the position as it was; `mousedown` alone keeps the position, sets
`isDragging`, and zeroes the velocity and the angular velocity. -/
theorem drag_keeps_grab_offset (o : PhysicsObject K) (p0 p1 delta : Vec K) :
    ((o.mousedown p0).mousemove p1 delta).pos
      = ⟨o.pos.x + (p1.x - p0.x), o.pos.y + (p1.y - p0.y)⟩
    ∧ ((o.mousedown p0).mousemove p0 delta).pos = o.pos
    ∧ (o.mousedown p0).pos = o.pos
    ∧ (o.mousedown p0).isDragging = true
    ∧ (o.mousedown p0).vel = ⟨0, 0⟩
    ∧ (o.mousedown p0).rotVel = 0 := by
  refine ⟨?_, ?_, rfl, rfl, rfl, rfl⟩
  · unfold PhysicsObject.mousemove mousedown
    simp only [if_true, Vec.mk.injEq]
    constructor <;> ring
  · unfold PhysicsObject.mousemove mousedown
    simp only [if_true]
    cases o with
    | mk pos vel angle rotVel width height radius mass isDragging dragOffset =>
      cases pos with
      | mk x y =>
        simp only [Vec.mk.injEq]
        constructor <;> ring

/-- C13: for a dragged object, `mouseup` after `mousemove` to the pointer `p`
with movement `delta` leaves it free, with velocity `delta`, at the position
`p - dragOffset` that `mousemove` gave it, and with angular velocity
`(r - 0.5) * 2` for the draw `r`, which lies in `[-1, 1)` for `r` in `[0, 1)`. -/
theorem release_after_drag (o : PhysicsObject K) (p delta : Vec K) (r : K)
    (hdrag : o.isDragging = true) (hr0 : 0 ≤ r) (hr1 : r < 1) :
    ((o.mousemove p delta).mouseup r).isDragging = false
    ∧ ((o.mousemove p delta).mouseup r).vel = delta
    ∧ ((o.mousemove p delta).mouseup r).pos = (o.mousemove p delta).pos
    ∧ ((o.mousemove p delta).mouseup r).pos = ⟨p.x - o.dragOffset.x, p.y - o.dragOffset.y⟩
    ∧ ((o.mousemove p delta).mouseup r).rotVel = (r - 0.5) * 2
    ∧ -1 ≤ ((o.mousemove p delta).mouseup r).rotVel
    ∧ ((o.mousemove p delta).mouseup r).rotVel < 1 := by
  have e : (o.mousemove p delta).mouseup r
      = { o with pos := ⟨p.x - o.dragOffset.x, p.y - o.dragOffset.y⟩, vel := ⟨delta.x, delta.y⟩,
                 isDragging := false, rotVel := (r - 0.5) * 2 } := by
    unfold mouseup PhysicsObject.mousemove
    simp only [hdrag, if_true]
  have e' : (o.mousemove p delta).pos = ⟨p.x - o.dragOffset.x, p.y - o.dragOffset.y⟩ := by
    unfold PhysicsObject.mousemove
    simp only [hdrag, if_true]
  rw [e, e']
  refine ⟨rfl, rfl, rfl, rfl, rfl, ?_, ?_⟩
  · show (-1 : K) ≤ (r - 0.5) * 2
    norm_num
    linarith
  · show (r - 0.5) * 2 < (1 : K)
    norm_num
    linarith

theorem release_after_drag_witness :
    (((held 100 100).mousemove ⟨200, 150⟩ ⟨7, -2⟩).mouseup (1 / 4)).isDragging = false
    ∧ (((held 100 100).mousemove ⟨200, 150⟩ ⟨7, -2⟩).mouseup (1 / 4)).vel = ⟨7, -2⟩
    ∧ (((held 100 100).mousemove ⟨200, 150⟩ ⟨7, -2⟩).mouseup (1 / 4)).pos
        = ((held 100 100).mousemove ⟨200, 150⟩ ⟨7, -2⟩).pos
    ∧ (((held 100 100).mousemove ⟨200, 150⟩ ⟨7, -2⟩).mouseup (1 / 4)).pos
        = ⟨200 - (held 100 100).dragOffset.x, 150 - (held 100 100).dragOffset.y⟩
    ∧ (((held 100 100).mousemove ⟨200, 150⟩ ⟨7, -2⟩).mouseup (1 / 4)).rotVel
        = (1 / 4 - 0.5) * 2
    ∧ -1 ≤ (((held 100 100).mousemove ⟨200, 150⟩ ⟨7, -2⟩).mouseup (1 / 4)).rotVel
    ∧ (((held 100 100).mousemove ⟨200, 150⟩ ⟨7, -2⟩).mouseup (1 / 4)).rotVel < 1 :=
  release_after_drag (held 100 100) ⟨200, 150⟩ ⟨7, -2⟩ (1 / 4) rfl (by norm_num) (by norm_num)

/-! ### The constructor -/

/-- C14: for a measured size with positive width and height, the constructor
sets `radius = min width height` when `max width height / min width height > 2`
and `radius = max width height / 2` otherwise (ratio exactly 2 included), and
`mass = width * height * 0.001`; `width` and `height` are the measured size. -/
theorem construct_radius_mass (win : Window K) (rnd : Nat → K) (k : Nat) (w h : K)
    (hw : 0 < w) (hh : 0 < h) :
    (2 < max w h / min w h → (construct win rnd k w h).1.radius = min w h)
    ∧ (max w h / min w h ≤ 2 → (construct win rnd k w h).1.radius = max w h / 2)
    ∧ (construct win rnd k w h).1.mass = w * h * 0.001
    ∧ (construct win rnd k w h).1.width = w
    ∧ (construct win rnd k w h).1.height = h
    ∧ 0 < (construct win rnd k w h).1.radius
    ∧ 0 < (construct win rnd k w h).1.mass := by
  have hmin : 0 < min w h := lt_min hw hh
  have hmax : 0 < max w h := lt_max_of_lt_left hw
  refine ⟨fun hgt => ?_, fun hle => ?_, rfl, rfl, rfl, ?_, ?_⟩
  · unfold construct
    simp only [gt_iff_lt, hgt, if_true]
  · unfold construct
    simp only [gt_iff_lt, not_lt.mpr hle, if_false]
  · unfold construct
    simp only
    split_ifs
    · exact hmin
    · exact half_pos hmax
  · show 0 < w * h * 0.001
    have : (0 : K) < 0.001 := by norm_num
    positivity

theorem construct_radius_mass_witness :
    (construct screen rndQ 0 100 30).1.radius = min 100 30
    ∧ (construct screen rndQ 0 60 30).1.radius = max 60 30 / 2
    ∧ (construct screen rndQ 0 40 25).1.radius = max 40 25 / 2
    ∧ (construct screen rndQ 0 40 25).1.mass = 40 * 25 * 0.001 :=
  ⟨(construct_radius_mass screen rndQ 0 100 30 (by norm_num) (by norm_num)).1 (by norm_num),
   (construct_radius_mass screen rndQ 0 60 30 (by norm_num) (by norm_num)).2.1 (by norm_num),
   (construct_radius_mass screen rndQ 0 40 25 (by norm_num) (by norm_num)).2.1 (by norm_num),
   (construct_radius_mass screen rndQ 0 40 25 (by norm_num) (by norm_num)).2.2.1⟩

/-- C15, as stated, fails: with the draws `0` the constructor puts a 50 by 50
object in a 1000 by 800 viewport at horizontal offset `-200` and vertical offset
`-100` from the centred position, not at `(0 - 0.5) * 800 = -400` and
`(0 - 0.5) * 400 = -200`. -/
theorem construct_jitter_not_800 :
    (construct screen (fun _ => 0) 0 50 50).1.pos.x - (screen.innerWidth - 50) / 2 = -200
    ∧ (construct screen (fun _ => 0) 0 50 50).1.pos.x - (screen.innerWidth - 50) / 2
        ≠ (0 - 0.5) * 800
    ∧ (construct screen (fun _ => 0) 0 50 50).1.pos.y - (screen.innerHeight - 50) / 2 = -100
    ∧ (construct screen (fun _ => 0) 0 50 50).1.pos.y - (screen.innerHeight - 50) / 2
        ≠ (0 - 0.5) * 400 := by
  norm_num [construct, screen]

/-- C15, amended: the constructor places the object at the centred position
`((innerWidth - width) / 2, (innerHeight - height) / 2)` plus the offsets
`(r1 - 0.5) * 400` and `(r2 - 0.5) * 200` for its first two draws; for draws in
`[0, 1)` the offsets lie in `[-200, 200)` and `[-100, 100)`, and every value of
these intervals is the offset for some draw in `[0, 1)`. -/
theorem construct_jitter (win : Window K) (rnd : Nat → K) (k : Nat) (w h : K)
    (hr : ∀ i, 0 ≤ rnd i ∧ rnd i < 1) :
    (construct win rnd k w h).1.pos.x - (win.innerWidth - w) / 2 = (rnd k - 0.5) * 400
    ∧ (construct win rnd k w h).1.pos.y - (win.innerHeight - h) / 2 = (rnd (k + 1) - 0.5) * 200
    ∧ -200 ≤ (construct win rnd k w h).1.pos.x - (win.innerWidth - w) / 2
    ∧ (construct win rnd k w h).1.pos.x - (win.innerWidth - w) / 2 < 200
    ∧ -100 ≤ (construct win rnd k w h).1.pos.y - (win.innerHeight - h) / 2
    ∧ (construct win rnd k w h).1.pos.y - (win.innerHeight - h) / 2 < 100
    ∧ (∀ t : K, -200 ≤ t → t < 200 → ∃ r : K, 0 ≤ r ∧ r < 1
        ∧ (construct win (fun _ => r) k w h).1.pos.x - (win.innerWidth - w) / 2 = t)
    ∧ (∀ t : K, -100 ≤ t → t < 100 → ∃ r : K, 0 ≤ r ∧ r < 1
        ∧ (construct win (fun _ => r) k w h).1.pos.y - (win.innerHeight - h) / 2 = t) := by
  have ex : ∀ f : Nat → K, (construct win f k w h).1.pos.x - (win.innerWidth - w) / 2
      = (f k - 0.5) * 400 := by
    intro f
    show (win.innerWidth - w) * 0.5 + (f k - 0.5) * 400 - (win.innerWidth - w) / 2 = _
    ring
  have ey : ∀ f : Nat → K, (construct win f k w h).1.pos.y - (win.innerHeight - h) / 2
      = (f (k + 1) - 0.5) * 200 := by
    intro f
    show (win.innerHeight - h) * 0.5 + (f (k + 1) - 0.5) * 200 - (win.innerHeight - h) / 2 = _
    ring
  obtain ⟨a0, a1⟩ := hr k
  obtain ⟨b0, b1⟩ := hr (k + 1)
  refine ⟨ex rnd, ey rnd, ?_, ?_, ?_, ?_, ?_, ?_⟩
  · rw [ex]
    norm_num
    linarith
  · rw [ex]
    norm_num
    linarith
  · rw [ey]
    norm_num
    linarith
  · rw [ey]
    norm_num
    linarith
  · intro t ht0 ht1
    refine ⟨t / 400 + 0.5, ?_, ?_, ?_⟩
    · norm_num
      linarith
    · norm_num
      linarith
    · rw [ex]
      ring
  · intro t ht0 ht1
    refine ⟨t / 200 + 0.5, ?_, ?_, ?_⟩
    · norm_num
      linarith
    · norm_num
      linarith
    · rw [ey]
      ring

theorem construct_jitter_witness :
    (construct screen rndQ 0 50 50).1.pos.x - (screen.innerWidth - 50) / 2
        = (rndQ 0 - 0.5) * 400
    ∧ -200 ≤ (construct screen rndQ 0 50 50).1.pos.x - (screen.innerWidth - 50) / 2
    ∧ (construct screen rndQ 0 50 50).1.pos.x - (screen.innerWidth - 50) / 2 < 200 :=
  ⟨(construct_jitter screen rndQ 0 50 50 rndQ_range).1,
   (construct_jitter screen rndQ 0 50 50 rndQ_range).2.2.1,
   (construct_jitter screen rndQ 0 50 50 rndQ_range).2.2.2.1⟩

/-! ### Size, radius and mass never change -/

theorem update_shape (M : Math K) (win : Window K) (o : PhysicsObject K)
    (mousePos : Option (Vec K)) : (o.update M win mousePos).shape = o.shape := by
  unfold update
  split_ifs
  · rfl
  · have h1 : (wallBouncing win (damping (mouseRepulsion M (integrate o) mousePos))).shape
        = (damping (mouseRepulsion M (integrate o) mousePos)).shape := by
      unfold wallBouncing
      simp only
      split_ifs <;> rfl
    have h2 : (mouseRepulsion M (integrate o) mousePos).shape = (integrate o).shape := by
      unfold mouseRepulsion
      cases mousePos with
      | none => rfl
      | some p => simp only; split_ifs <;> rfl
    rw [h1]
    exact h2

theorem resolveCollision_shape (rnd : Nat → K) (k : Nat) (obj1 obj2 : PhysicsObject K)
    (dx dy distance : K) :
    (resolveCollision rnd k obj1 obj2 dx dy distance).1.shape = obj1.shape
    ∧ (resolveCollision rnd k obj1 obj2 dx dy distance).2.1.shape = obj2.shape := by
  obtain ⟨a1, a2, a3, a4, _⟩ := resolveCollision_fst_shape rnd k obj1 obj2 dx dy distance
  obtain ⟨b1, b2, b3, b4, _⟩ := resolveCollision_snd_shape rnd k obj1 obj2 dx dy distance
  unfold PhysicsObject.shape
  rw [a1, a2, a3, a4, b1, b2, b3, b4]
  exact ⟨rfl, rfl⟩

theorem set_of_getElem? {α : Type} (l : List α) (i : Nat) (a : α) (h : l[i]? = some a) :
    l.set i a = l := by
  apply List.ext_getElem?
  intro n
  rw [List.getElem?_set]
  split_ifs with h1 h2
  · subst h1
    exact h.symm
  · subst h1
    rw [List.getElem?_eq_none (not_lt.mp h2)]
  · rfl

theorem collidePair_shape (M : Math K) (rnd : Nat → K) (i j : Nat)
    (eng : AntigravityEngine K) :
    (collidePair M rnd i j eng).objects.map PhysicsObject.shape
      = eng.objects.map PhysicsObject.shape := by
  unfold collidePair
  split
  · next obj1 obj2 h1 h2 =>
    simp only
    split_ifs
    · simp only [List.map_set, (resolveCollision_shape rnd eng.drawn obj1 obj2 _ _ _).1,
        (resolveCollision_shape rnd eng.drawn obj1 obj2 _ _ _).2]
      have e1 : (eng.objects.map PhysicsObject.shape)[i]? = some obj1.shape := by
        rw [List.getElem?_map, h1]
        rfl
      have e2 : (eng.objects.map PhysicsObject.shape)[j]? = some obj2.shape := by
        rw [List.getElem?_map, h2]
        rfl
      rw [set_of_getElem? _ i _ e1, set_of_getElem? _ j _ e2]
    · rfl
  · rfl

theorem checkCollisions_shape (M : Math K) (rnd : Nat → K) (eng : AntigravityEngine K) :
    (checkCollisions M rnd eng).objects.map PhysicsObject.shape
      = eng.objects.map PhysicsObject.shape :=
  checkCollisions_preserves M rnd
    (fun e => e.objects.map PhysicsObject.shape = eng.objects.map PhysicsObject.shape)
    (fun i j e he => (collidePair_shape M rnd i j e).trans he) eng rfl

theorem animate_shape (M : Math K) (rnd : Nat → K) (win : Window K)
    (eng : AntigravityEngine K) :
    (animate M rnd win eng).objects.map PhysicsObject.shape
      = eng.objects.map PhysicsObject.shape := by
  unfold animate
  simp only [List.map_map]
  have e : (PhysicsObject.shape ∘ fun obj : PhysicsObject K =>
      obj.update M win (some (checkCollisions M rnd eng).mousePos)) = PhysicsObject.shape := by
    funext o
    exact update_shape M win o _
  rw [e]
  exact checkCollisions_shape M rnd eng

theorem frames_shape (M : Math K) (rnd : Nat → K) : ∀ (wins : List (Window K))
    (eng : AntigravityEngine K),
    (frames M rnd wins eng).objects.map PhysicsObject.shape
      = eng.objects.map PhysicsObject.shape := by
  intro wins
  induction wins with
  | nil => intro eng; rfl
  | cons win wins ih =>
    intro eng
    exact (ih (animate M rnd win eng)).trans (animate_shape M rnd win eng)

/-- C16: `width`, `height`, `radius` and `mass` (the `shape`) of an object are
left as they were by `update`, by the three drag handlers and by
`resolveCollision`, and the list of shapes of an engine is left as it was by
`checkCollisions` and by any number of frames. -/
theorem shape_invariant (M : Math K) (rnd : Nat → K) (win : Window K)
    (wins : List (Window K)) (eng : AntigravityEngine K) (o obj1 obj2 : PhysicsObject K)
    (mousePos : Option (Vec K)) (p delta : Vec K) (r dx dy distance : K) (k : Nat) :
    (o.update M win mousePos).shape = o.shape
    ∧ (o.mousedown p).shape = o.shape
    ∧ (o.mousemove p delta).shape = o.shape
    ∧ (o.mouseup r).shape = o.shape
    ∧ (resolveCollision rnd k obj1 obj2 dx dy distance).1.shape = obj1.shape
    ∧ (resolveCollision rnd k obj1 obj2 dx dy distance).2.1.shape = obj2.shape
    ∧ (checkCollisions M rnd eng).objects.map PhysicsObject.shape
        = eng.objects.map PhysicsObject.shape
    ∧ (frames M rnd wins eng).objects.map PhysicsObject.shape
        = eng.objects.map PhysicsObject.shape := by
  refine ⟨update_shape M win o mousePos, rfl, ?_, ?_,
    (resolveCollision_shape rnd k obj1 obj2 dx dy distance).1,
    (resolveCollision_shape rnd k obj1 obj2 dx dy distance).2,
    checkCollisions_shape M rnd eng, frames_shape M rnd wins eng⟩
  · unfold PhysicsObject.mousemove
    split_ifs <;> rfl
  · unfold mouseup
    split_ifs <;> rfl

/-! ### The walls -/

theorem wallBouncing_eq_bounce (win : Window K) (o : PhysicsObject K) :
    wallBouncing win o = bounceY win (bounceX win o) := rfl

theorem bounceX_keeps (win : Window K) (o : PhysicsObject K) :
    (bounceX win o).pos.y = o.pos.y ∧ (bounceX win o).vel.y = o.vel.y
    ∧ (bounceX win o).width = o.width ∧ (bounceX win o).height = o.height := by
  unfold bounceX
  simp only
  split_ifs <;> exact ⟨rfl, rfl, rfl, rfl⟩

theorem bounceY_keeps (win : Window K) (o : PhysicsObject K) :
    (bounceY win o).pos.x = o.pos.x ∧ (bounceY win o).vel.x = o.vel.x
    ∧ (bounceY win o).width = o.width ∧ (bounceY win o).height = o.height := by
  unfold bounceY
  simp only
  split_ifs <;> exact ⟨rfl, rfl, rfl, rfl⟩

theorem bounceX_x (win : Window K) (o : PhysicsObject K) (hw : o.width ≤ win.innerWidth) :
    (bounceX win o).pos.x = max 0 (min o.pos.x (win.innerWidth - o.width))
    ∧ (bounceX win o).vel.x
        = if o.pos.x < 0 ∨ win.innerWidth - o.width < o.pos.x then -o.vel.x else o.vel.x := by
  unfold bounceX
  by_cases h1 : o.pos.x < 0
  · have hmin : min o.pos.x (win.innerWidth - o.width) = o.pos.x := min_eq_left (by linarith)
    simp [h1, not_lt.mpr hw, hmin, max_eq_left h1.le]
  · by_cases h2 : win.innerWidth < o.pos.x + o.width
    · have h2' : win.innerWidth - o.width < o.pos.x := by linarith
      have hmin : min o.pos.x (win.innerWidth - o.width) = win.innerWidth - o.width :=
        min_eq_right h2'.le
      simp [h1, h2, h2', hmin, max_eq_right (sub_nonneg.mpr hw)]
    · have h2' : ¬ (win.innerWidth - o.width < o.pos.x) := by
        intro hc
        exact h2 (by linarith)
      have hmin : min o.pos.x (win.innerWidth - o.width) = o.pos.x :=
        min_eq_left (not_lt.mp h2')
      simp [h1, h2, h2', hmin, max_eq_right (not_lt.mp h1)]

theorem bounceY_y (win : Window K) (o : PhysicsObject K) (hh : o.height ≤ win.innerHeight) :
    (bounceY win o).pos.y = max 0 (min o.pos.y (win.innerHeight - o.height))
    ∧ (bounceY win o).vel.y
        = if o.pos.y < 0 ∨ win.innerHeight - o.height < o.pos.y then -o.vel.y else o.vel.y := by
  unfold bounceY
  by_cases h1 : o.pos.y < 0
  · have hmin : min o.pos.y (win.innerHeight - o.height) = o.pos.y :=
      min_eq_left (by linarith)
    simp [h1, not_lt.mpr hh, hmin, max_eq_left h1.le]
  · by_cases h2 : win.innerHeight < o.pos.y + o.height
    · have h2' : win.innerHeight - o.height < o.pos.y := by linarith
      have hmin : min o.pos.y (win.innerHeight - o.height) = win.innerHeight - o.height :=
        min_eq_right h2'.le
      simp [h1, h2, h2', hmin, max_eq_right (sub_nonneg.mpr hh)]
    · have h2' : ¬ (win.innerHeight - o.height < o.pos.y) := by
        intro hc
        exact h2 (by linarith)
      have hmin : min o.pos.y (win.innerHeight - o.height) = o.pos.y :=
        min_eq_left (not_lt.mp h2')
      simp [h1, h2, h2', hmin, max_eq_right (not_lt.mp h1)]

theorem wallBouncing_clamp (win : Window K) (o : PhysicsObject K)
    (hw : o.width ≤ win.innerWidth) (hh : o.height ≤ win.innerHeight) :
    (wallBouncing win o).pos.x = max 0 (min o.pos.x (win.innerWidth - o.width))
    ∧ (wallBouncing win o).pos.y = max 0 (min o.pos.y (win.innerHeight - o.height))
    ∧ (wallBouncing win o).vel.x
        = (if o.pos.x < 0 ∨ win.innerWidth - o.width < o.pos.x then -o.vel.x else o.vel.x)
    ∧ (wallBouncing win o).vel.y
        = (if o.pos.y < 0 ∨ win.innerHeight - o.height < o.pos.y then -o.vel.y else o.vel.y)
    ∧ (wallBouncing win o).width = o.width ∧ (wallBouncing win o).height = o.height := by
  rw [wallBouncing_eq_bounce]
  obtain ⟨kx1, kx2, kx3, kx4⟩ := bounceX_keeps win o
  obtain ⟨ky1, ky2, ky3, ky4⟩ := bounceY_keeps win (bounceX win o)
  obtain ⟨x1, x2⟩ := bounceX_x win o hw
  obtain ⟨y1, y2⟩ := bounceY_y win (bounceX win o) (by rw [kx4]; exact hh)
  rw [kx1, kx4] at y1
  rw [kx1, kx2, kx4] at y2
  exact ⟨ky1.trans x1, y1, ky2.trans x2, y2, ky3.trans kx3, ky4.trans kx4⟩

/-- C17: for a free object no larger than the viewport, `update` leaves
`pos.x = clamp (pos.x + vel.x) 0 (innerWidth - width)` and
`pos.y = clamp (pos.y + vel.y) 0 (innerHeight - height)`, so the object lies
inside the viewport afterwards; on each axis the resulting velocity is the
damped velocity, negated exactly when the integrated position was outside that
range. -/
theorem update_clamps (M : Math K) (win : Window K) (o : PhysicsObject K)
    (mousePos : Option (Vec K)) (hd : o.isDragging = false)
    (hw : o.width ≤ win.innerWidth) (hh : o.height ≤ win.innerHeight) :
    (o.update M win mousePos).pos.x
        = max 0 (min (o.pos.x + o.vel.x) (win.innerWidth - o.width))
    ∧ (o.update M win mousePos).pos.y
        = max 0 (min (o.pos.y + o.vel.y) (win.innerHeight - o.height))
    ∧ 0 ≤ (o.update M win mousePos).pos.x
    ∧ (o.update M win mousePos).pos.x + (o.update M win mousePos).width ≤ win.innerWidth
    ∧ 0 ≤ (o.update M win mousePos).pos.y
    ∧ (o.update M win mousePos).pos.y + (o.update M win mousePos).height ≤ win.innerHeight
    ∧ (o.update M win mousePos).vel.x
        = (if o.pos.x + o.vel.x < 0 ∨ win.innerWidth - o.width < o.pos.x + o.vel.x
            then -(damping (mouseRepulsion M (integrate o) mousePos)).vel.x
            else (damping (mouseRepulsion M (integrate o) mousePos)).vel.x)
    ∧ (o.update M win mousePos).vel.y
        = (if o.pos.y + o.vel.y < 0 ∨ win.innerHeight - o.height < o.pos.y + o.vel.y
            then -(damping (mouseRepulsion M (integrate o) mousePos)).vel.y
            else (damping (mouseRepulsion M (integrate o) mousePos)).vel.y) := by
  obtain ⟨hp, hwd, hht⟩ := mouseRepulsion_pos M (integrate o) mousePos
  have epx : (damping (mouseRepulsion M (integrate o) mousePos)).pos.x = o.pos.x + o.vel.x := by
    show (mouseRepulsion M (integrate o) mousePos).pos.x = _
    rw [hp]
    rfl
  have epy : (damping (mouseRepulsion M (integrate o) mousePos)).pos.y = o.pos.y + o.vel.y := by
    show (mouseRepulsion M (integrate o) mousePos).pos.y = _
    rw [hp]
    rfl
  have ew : (damping (mouseRepulsion M (integrate o) mousePos)).width = o.width := hwd
  have eh : (damping (mouseRepulsion M (integrate o) mousePos)).height = o.height := hht
  obtain ⟨c1, c2, c3, c4, c5, c6⟩ := wallBouncing_clamp win
    (damping (mouseRepulsion M (integrate o) mousePos)) (by rw [ew]; exact hw)
    (by rw [eh]; exact hh)
  rw [epx, ew] at c1 c3
  rw [epy, eh] at c2 c4
  rw [update_of_free M win o mousePos hd, c1, c2, c5, c6, ew, eh]
  have hW : 0 ≤ win.innerWidth - o.width := sub_nonneg.mpr hw
  have hH : 0 ≤ win.innerHeight - o.height := sub_nonneg.mpr hh
  refine ⟨rfl, rfl, le_max_left _ _, ?_, le_max_left _ _, ?_, c3, c4⟩
  · have := max_le hW (min_le_right (o.pos.x + o.vel.x) (win.innerWidth - o.width))
    linarith
  · have := max_le hH (min_le_right (o.pos.y + o.vel.y) (win.innerHeight - o.height))
    linarith

theorem update_clamps_witness :
    ((tile 990 (-3) 20 (-4)).update mathQ screen none).pos.x
        = max 0 (min ((tile 990 (-3) 20 (-4)).pos.x + (tile 990 (-3) 20 (-4)).vel.x)
            (screen.innerWidth - (tile 990 (-3) 20 (-4)).width))
    ∧ ((tile 990 (-3) 20 (-4)).update mathQ screen none).pos.y
        = max 0 (min ((tile 990 (-3) 20 (-4)).pos.y + (tile 990 (-3) 20 (-4)).vel.y)
            (screen.innerHeight - (tile 990 (-3) 20 (-4)).height))
    ∧ 0 ≤ ((tile 990 (-3) 20 (-4)).update mathQ screen none).pos.x
    ∧ ((tile 990 (-3) 20 (-4)).update mathQ screen none).pos.x
        + ((tile 990 (-3) 20 (-4)).update mathQ screen none).width ≤ screen.innerWidth :=
  ⟨(update_clamps mathQ screen (tile 990 (-3) 20 (-4)) none rfl
      (by norm_num [tile, screen]) (by norm_num [tile, screen])).1,
   (update_clamps mathQ screen (tile 990 (-3) 20 (-4)) none rfl
      (by norm_num [tile, screen]) (by norm_num [tile, screen])).2.1,
   (update_clamps mathQ screen (tile 990 (-3) 20 (-4)) none rfl
      (by norm_num [tile, screen]) (by norm_num [tile, screen])).2.2.1,
   (update_clamps mathQ screen (tile 990 (-3) 20 (-4)) none rfl
      (by norm_num [tile, screen]) (by norm_num [tile, screen])).2.2.2.1⟩

/-! ### Objects that are far enough apart -/

theorem foldl_preserves_mem {α β : Type} (P : α → Prop) (f : α → β → α) :
    ∀ (l : List β) (a : α), (∀ a b, b ∈ l → P a → P (f a b)) → P a → P (l.foldl f a) := by
  intro l
  induction l with
  | nil => intro a _ ha; exact ha
  | cons b l ih =>
    intro a h ha
    exact ih (f a b) (fun a' b' hb' => h a' b' (List.mem_cons_of_mem _ hb'))
      (h a b (List.mem_cons_self _ _) ha)

theorem checkCollisions_preserves_lt (M : Math K) (rnd : Nat → K)
    (P : AntigravityEngine K → Prop)
    (h : ∀ i j eng, i < j → P eng → P (collidePair M rnd i j eng)) (eng : AntigravityEngine K)
    (h0 : P eng) : P (checkCollisions M rnd eng) := by
  unfold checkCollisions
  refine foldl_preserves P _ (fun e i he => ?_) _ eng h0
  refine foldl_preserves_mem P _ _ e (fun e' j hj he' => ?_) he
  rw [List.mem_range'_1] at hj
  exact h i j e' (by omega) he'

theorem collidePair_of_apart (M : Math K) (rnd : Nat → K) (i j : Nat)
    (eng : AntigravityEngine K) (a b : PhysicsObject K)
    (ha : eng.objects[i]? = some a) (hb : eng.objects[j]? = some b)
    (hfar : (a.radius + b.radius) * 0.8 ≤ centreDistance M a b) :
    collidePair M rnd i j eng = eng := by
  unfold centreDistance centreDelta at hfar
  unfold collidePair
  simp only [ha, hb, not_lt.mpr hfar, if_false]

/-- C18: when every pair of objects at indices `i < j` has centre distance at
least `0.8 * (r_i + r_j)`, `checkCollisions` returns the engine as it was
(every position, velocity and angular velocity, and no draw consumed); and the
step for a pair whose centre distance, in the state in which the pair is
examined, is not below `0.8 * (r_i + r_j)` changes nothing. -/
theorem checkCollisions_of_apart (M : Math K) (rnd : Nat → K) (eng : AntigravityEngine K) :
    ((∀ (i j : Nat) (a b : PhysicsObject K), i < j → eng.objects[i]? = some a →
        eng.objects[j]? = some b → (a.radius + b.radius) * 0.8 ≤ centreDistance M a b) →
      checkCollisions M rnd eng = eng)
    ∧ (∀ (i j : Nat) (a b : PhysicsObject K), eng.objects[i]? = some a →
        eng.objects[j]? = some b → (a.radius + b.radius) * 0.8 ≤ centreDistance M a b →
        collidePair M rnd i j eng = eng) := by
  constructor
  · intro hfar
    refine checkCollisions_preserves_lt M rnd (fun e => e = eng) (fun i j e hij he => ?_) eng rfl
    subst he
    cases ha : e.objects[i]? with
    | none =>
      unfold collidePair
      split
      · next a b h1 h2 =>
        rw [ha] at h1
        exact Option.noConfusion h1
      · rfl
    | some a =>
      cases hb : e.objects[j]? with
      | none =>
        unfold collidePair
        split
        · next a b h1 h2 =>
          rw [hb] at h2
          exact Option.noConfusion h2
        · rfl
      | some b => exact collidePair_of_apart M rnd i j e a b ha hb (hfar i j a b hij ha hb)
  · intro i j a b ha hb hfar
    exact collidePair_of_apart M rnd i j eng a b ha hb hfar

theorem centreDistance_mathQ_level (a b : PhysicsObject ℚ) (h : (centreDelta a b).y = 0) :
    centreDistance mathQ a b = |(centreDelta a b).x| := by
  unfold centreDistance
  rw [h, mul_zero, add_zero]
  exact sqrtQ_mul_self _

theorem apartDemo_far (i j : Nat) (a b : PhysicsObject ℚ) (hij : i < j)
    (ha : apartDemo.objects[i]? = some a) (hb : apartDemo.objects[j]? = some b) :
    (a.radius + b.radius) * 0.8 ≤ centreDistance mathQ a b := by
  have hj : j < 2 := by
    by_contra hc
    have : apartDemo.objects[j]? = none := List.getElem?_eq_none (by
      show [card 100 100 1 0, card 300 100 (-1) 0].length ≤ j
      simp only [List.length_cons, List.length_nil]
      omega)
    rw [this] at hb
    exact Option.noConfusion hb
  have hi0 : i = 0 := by omega
  have hj1 : j = 1 := by omega
  subst hi0 hj1
  have ea : a = card 100 100 1 0 := by
    have : apartDemo.objects[0]? = some (card 100 100 1 0) := rfl
    rw [this] at ha
    exact (Option.some.inj ha).symm
  have eb : b = card 300 100 (-1) 0 := by
    have : apartDemo.objects[1]? = some (card 300 100 (-1) 0) := rfl
    rw [this] at hb
    exact (Option.some.inj hb).symm
  subst ea eb
  rw [centreDistance_mathQ_level _ _ (by norm_num [centreDelta, card])]
  norm_num [centreDelta, card]

theorem checkCollisions_of_apart_witness :
    checkCollisions mathQ rndQ apartDemo = apartDemo
    ∧ collidePair mathQ rndQ 0 1 apartDemo = apartDemo :=
  ⟨(checkCollisions_of_apart mathQ rndQ apartDemo).1 apartDemo_far,
   (checkCollisions_of_apart mathQ rndQ apartDemo).2 0 1 (card 100 100 1 0)
      (card 300 100 (-1) 0) rfl rfl (apartDemo_far 0 1 _ _ (by norm_num) rfl rfl)⟩

/-! ### `resolveCollision`: momentum -/

theorem resolveCollision_free_eq (rnd : Nat → K) (k : Nat) (obj1 obj2 : PhysicsObject K)
    (dx dy distance : K) (hd1 : obj1.isDragging = false) (hd2 : obj2.isDragging = false)
    (hvn : velAlongNormal obj1 obj2 dx dy distance ≤ 0) :
    (resolveCollision rnd k obj1 obj2 dx dy distance).1.pos
        = (if 0 < (obj1.radius + obj2.radius) * 0.8 - distance then
            ⟨obj1.pos.x + ((obj1.radius + obj2.radius) * 0.8 - distance)
                / (1 / obj1.mass + 1 / obj2.mass) * (dx / distance) * 0.2 * (1 / obj1.mass),
             obj1.pos.y + ((obj1.radius + obj2.radius) * 0.8 - distance)
                / (1 / obj1.mass + 1 / obj2.mass) * (dy / distance) * 0.2 * (1 / obj1.mass)⟩
          else obj1.pos)
    ∧ (resolveCollision rnd k obj1 obj2 dx dy distance).2.1.pos
        = (if 0 < (obj1.radius + obj2.radius) * 0.8 - distance then
            ⟨obj2.pos.x - ((obj1.radius + obj2.radius) * 0.8 - distance)
                / (1 / obj1.mass + 1 / obj2.mass) * (dx / distance) * 0.2 * (1 / obj2.mass),
             obj2.pos.y - ((obj1.radius + obj2.radius) * 0.8 - distance)
                / (1 / obj1.mass + 1 / obj2.mass) * (dy / distance) * 0.2 * (1 / obj2.mass)⟩
          else obj2.pos) := by
  unfold velAlongNormal at hvn
  unfold resolveCollision
  simp only [hd1, hd2, not_lt.mpr hvn, gt_iff_lt, if_false, Bool.false_eq_true]
  split_ifs <;> exact ⟨rfl, rfl⟩

/-- C19: for two free objects with positive masses and `distance > 0`,
`resolveCollision` conserves the total momentum `m1 * v1 + m2 * v2` and the
mass-weighted centre `m1 * pos1 + m2 * pos2`, on both axes. -/
theorem resolveCollision_conserves (rnd : Nat → K) (k : Nat) (obj1 obj2 : PhysicsObject K)
    (dx dy distance : K) (hd1 : obj1.isDragging = false) (hd2 : obj2.isDragging = false)
    (hm1 : 0 < obj1.mass) (hm2 : 0 < obj2.mass) (hdist : 0 < distance) :
    obj1.mass * (resolveCollision rnd k obj1 obj2 dx dy distance).1.vel.x
        + obj2.mass * (resolveCollision rnd k obj1 obj2 dx dy distance).2.1.vel.x
      = obj1.mass * obj1.vel.x + obj2.mass * obj2.vel.x
    ∧ obj1.mass * (resolveCollision rnd k obj1 obj2 dx dy distance).1.vel.y
        + obj2.mass * (resolveCollision rnd k obj1 obj2 dx dy distance).2.1.vel.y
      = obj1.mass * obj1.vel.y + obj2.mass * obj2.vel.y
    ∧ obj1.mass * (resolveCollision rnd k obj1 obj2 dx dy distance).1.pos.x
        + obj2.mass * (resolveCollision rnd k obj1 obj2 dx dy distance).2.1.pos.x
      = obj1.mass * obj1.pos.x + obj2.mass * obj2.pos.x
    ∧ obj1.mass * (resolveCollision rnd k obj1 obj2 dx dy distance).1.pos.y
        + obj2.mass * (resolveCollision rnd k obj1 obj2 dx dy distance).2.1.pos.y
      = obj1.mass * obj1.pos.y + obj2.mass * obj2.pos.y := by
  have h1 : obj1.mass ≠ 0 := hm1.ne.symm
  have h2 : obj2.mass ≠ 0 := hm2.ne.symm
  by_cases hvn : 0 < velAlongNormal obj1 obj2 dx dy distance
  · rw [resolveCollision_of_separating rnd k obj1 obj2 dx dy distance hvn]
    exact ⟨rfl, rfl, rfl, rfl⟩
  · have hvn' := not_lt.mp hvn
    obtain ⟨p1, p2⟩ := resolveCollision_free_eq rnd k obj1 obj2 dx dy distance hd1 hd2 hvn'
    rw [resolveCollision_fst_vel rnd k obj1 obj2 dx dy distance hd1 hvn',
      resolveCollision_snd_vel rnd k obj1 obj2 dx dy distance hd2 hvn', p1, p2]
    refine ⟨?_, ?_, ?_, ?_⟩
    · simp only
      field_simp
      ring
    · simp only
      field_simp
      ring
    · split_ifs
      · simp only
        field_simp
        ring
      · rfl
    · split_ifs
      · simp only
        field_simp
        ring
      · rfl

theorem resolveCollision_conserves_witness :
    (card 106 108 (-1) 0).mass * (resolveCollision rndQ 0 (card 106 108 (-1) 0)
          (tile 95 87.5 1 0) 6 8 10).1.vel.x
        + (tile 95 87.5 1 0).mass * (resolveCollision rndQ 0 (card 106 108 (-1) 0)
          (tile 95 87.5 1 0) 6 8 10).2.1.vel.x
      = (card 106 108 (-1) 0).mass * (card 106 108 (-1) 0).vel.x
        + (tile 95 87.5 1 0).mass * (tile 95 87.5 1 0).vel.x
    ∧ (card 106 108 (-1) 0).mass * (resolveCollision rndQ 0 (card 106 108 (-1) 0)
          (tile 95 87.5 1 0) 6 8 10).1.pos.x
        + (tile 95 87.5 1 0).mass * (resolveCollision rndQ 0 (card 106 108 (-1) 0)
          (tile 95 87.5 1 0) 6 8 10).2.1.pos.x
      = (card 106 108 (-1) 0).mass * (card 106 108 (-1) 0).pos.x
        + (tile 95 87.5 1 0).mass * (tile 95 87.5 1 0).pos.x :=
  ⟨(resolveCollision_conserves rndQ 0 (card 106 108 (-1) 0) (tile 95 87.5 1 0) 6 8 10 rfl rfl
      (by norm_num [card]) (by norm_num [tile]) (by norm_num)).1,
   (resolveCollision_conserves rndQ 0 (card 106 108 (-1) 0) (tile 95 87.5 1 0) 6 8 10 rfl rfl
      (by norm_num [card]) (by norm_num [tile]) (by norm_num)).2.2.1⟩

/-! ### `resolveCollision`: one object held by the pointer -/

theorem still_approaching_iff (vn md mf : K) (hmd : 0 < md) (hmf : 0 < mf) (hvn : vn < 0) :
    vn * (1 - 1.8 * md / (md + mf)) < 0 ↔ md < 1.25 * mf := by
  have hs : 0 < md + mf := add_pos hmd hmf
  have e : 1 - 1.8 * md / (md + mf) = (mf - 0.8 * md) / (md + mf) := by
    field_simp
    ring
  rw [e]
  constructor
  · intro h
    by_contra hc
    have hle : mf - 0.8 * md ≤ 0 := by
      have := not_lt.mp hc
      norm_num at this ⊢
      linarith
    have hq : (mf - 0.8 * md) / (md + mf) ≤ 0 := div_nonpos_of_nonpos_of_nonneg hle hs.le
    have := mul_nonneg_of_nonpos_of_nonpos hvn.le hq
    linarith
  · intro h
    have hpos : 0 < mf - 0.8 * md := by
      norm_num at h ⊢
      linarith
    exact mul_neg_of_neg_of_pos hvn (div_pos hpos hs)

theorem velAlongNormal_snd_free (rnd : Nat → K) (k : Nat) (obj1 obj2 : PhysicsObject K)
    (dx dy distance : K) (hd1 : obj1.isDragging = true) (hd2 : obj2.isDragging = false)
    (hm1 : 0 < obj1.mass) (hm2 : 0 < obj2.mass)
    (hdist : 0 < distance) (hnorm : distance * distance = dx * dx + dy * dy)
    (hvn : velAlongNormal obj1 obj2 dx dy distance ≤ 0) :
    velAlongNormal (resolveCollision rnd k obj1 obj2 dx dy distance).1
        (resolveCollision rnd k obj1 obj2 dx dy distance).2.1 dx dy distance
      = velAlongNormal obj1 obj2 dx dy distance
          * (1 - 1.8 * obj1.mass / (obj1.mass + obj2.mass)) := by
  have hd : distance ≠ 0 := hdist.ne.symm
  have h1 : obj1.mass ≠ 0 := hm1.ne.symm
  have h2 : obj2.mass ≠ 0 := hm2.ne.symm
  have hs : obj1.mass + obj2.mass ≠ 0 := (add_pos hm1 hm2).ne.symm
  have hs' : obj2.mass + obj1.mass ≠ 0 := (add_pos hm2 hm1).ne.symm
  have hn : dx / distance * (dx / distance) + dy / distance * (dy / distance) = 1 := by
    field_simp
    linarith
  have hJ : 1 / obj2.mass * impulse obj1 obj2 dx dy distance
      = -1.8 * velAlongNormal obj1 obj2 dx dy distance
          * (obj1.mass / (obj1.mass + obj2.mass)) := by
    unfold impulse
    field_simp
    ring
  have e : velAlongNormal (resolveCollision rnd k obj1 obj2 dx dy distance).1
        (resolveCollision rnd k obj1 obj2 dx dy distance).2.1 dx dy distance
      = velAlongNormal obj1 obj2 dx dy distance
        + (1 / obj2.mass * impulse obj1 obj2 dx dy distance)
          * (dx / distance * (dx / distance) + dy / distance * (dy / distance)) := by
    rw [resolveCollision_fst_of_dragging rnd k obj1 obj2 dx dy distance hd1]
    unfold velAlongNormal
    rw [resolveCollision_snd_vel rnd k obj1 obj2 dx dy distance hd2 hvn]
    simp only
    ring
  rw [e, hn, hJ]
  ring

theorem velAlongNormal_fst_free (rnd : Nat → K) (k : Nat) (obj1 obj2 : PhysicsObject K)
    (dx dy distance : K) (hd1 : obj1.isDragging = false) (hd2 : obj2.isDragging = true)
    (hm1 : 0 < obj1.mass) (hm2 : 0 < obj2.mass)
    (hdist : 0 < distance) (hnorm : distance * distance = dx * dx + dy * dy)
    (hvn : velAlongNormal obj1 obj2 dx dy distance ≤ 0) :
    velAlongNormal (resolveCollision rnd k obj1 obj2 dx dy distance).1
        (resolveCollision rnd k obj1 obj2 dx dy distance).2.1 dx dy distance
      = velAlongNormal obj1 obj2 dx dy distance
          * (1 - 1.8 * obj2.mass / (obj2.mass + obj1.mass)) := by
  have hd : distance ≠ 0 := hdist.ne.symm
  have h1 : obj1.mass ≠ 0 := hm1.ne.symm
  have h2 : obj2.mass ≠ 0 := hm2.ne.symm
  have hs : obj1.mass + obj2.mass ≠ 0 := (add_pos hm1 hm2).ne.symm
  have hs' : obj2.mass + obj1.mass ≠ 0 := (add_pos hm2 hm1).ne.symm
  have hn : dx / distance * (dx / distance) + dy / distance * (dy / distance) = 1 := by
    field_simp
    linarith
  have hJ : 1 / obj1.mass * impulse obj1 obj2 dx dy distance
      = -1.8 * velAlongNormal obj1 obj2 dx dy distance
          * (obj2.mass / (obj2.mass + obj1.mass)) := by
    unfold impulse
    field_simp
    ring
  have e : velAlongNormal (resolveCollision rnd k obj1 obj2 dx dy distance).1
        (resolveCollision rnd k obj1 obj2 dx dy distance).2.1 dx dy distance
      = velAlongNormal obj1 obj2 dx dy distance
        + (1 / obj1.mass * impulse obj1 obj2 dx dy distance)
          * (dx / distance * (dx / distance) + dy / distance * (dy / distance)) := by
    rw [resolveCollision_snd_of_dragging rnd k obj1 obj2 dx dy distance hd2]
    unfold velAlongNormal
    rw [resolveCollision_fst_vel rnd k obj1 obj2 dx dy distance hd1 hvn]
    simp only
    ring
  rw [e, hn, hJ]
  ring

/-- C20: when exactly one object of a colliding pair is dragged (positive
masses, `distance > 0` the length of `(dx, dy)`, `vn ≤ 0`), `resolveCollision`
returns the dragged object unchanged and adds the impulse, computed from both
masses, to the free one only; the relative normal velocity becomes
`vn * (1 - 1.8 * m_dragged / (m_dragged + m_free))`, so for `vn < 0` the free
object is still approaching afterwards exactly when `m_dragged < 1.25 * m_free`. -/
theorem resolveCollision_one_dragged (rnd : Nat → K) (k : Nat) (obj1 obj2 : PhysicsObject K)
    (dx dy distance : K) (hm1 : 0 < obj1.mass) (hm2 : 0 < obj2.mass)
    (hdist : 0 < distance) (hnorm : distance * distance = dx * dx + dy * dy)
    (hvn : velAlongNormal obj1 obj2 dx dy distance ≤ 0) :
    (obj1.isDragging = true → obj2.isDragging = false →
      (resolveCollision rnd k obj1 obj2 dx dy distance).1 = obj1
      ∧ (resolveCollision rnd k obj1 obj2 dx dy distance).2.1.vel
          = ⟨obj2.vel.x - 1 / obj2.mass * (impulse obj1 obj2 dx dy distance * (dx / distance)),
             obj2.vel.y - 1 / obj2.mass * (impulse obj1 obj2 dx dy distance * (dy / distance))⟩
      ∧ velAlongNormal (resolveCollision rnd k obj1 obj2 dx dy distance).1
            (resolveCollision rnd k obj1 obj2 dx dy distance).2.1 dx dy distance
          = velAlongNormal obj1 obj2 dx dy distance
              * (1 - 1.8 * obj1.mass / (obj1.mass + obj2.mass))
      ∧ (velAlongNormal obj1 obj2 dx dy distance < 0 →
          (velAlongNormal (resolveCollision rnd k obj1 obj2 dx dy distance).1
              (resolveCollision rnd k obj1 obj2 dx dy distance).2.1 dx dy distance < 0
            ↔ obj1.mass < 1.25 * obj2.mass)))
    ∧ (obj1.isDragging = false → obj2.isDragging = true →
      (resolveCollision rnd k obj1 obj2 dx dy distance).2.1 = obj2
      ∧ (resolveCollision rnd k obj1 obj2 dx dy distance).1.vel
          = ⟨obj1.vel.x + 1 / obj1.mass * (impulse obj1 obj2 dx dy distance * (dx / distance)),
             obj1.vel.y + 1 / obj1.mass * (impulse obj1 obj2 dx dy distance * (dy / distance))⟩
      ∧ velAlongNormal (resolveCollision rnd k obj1 obj2 dx dy distance).1
            (resolveCollision rnd k obj1 obj2 dx dy distance).2.1 dx dy distance
          = velAlongNormal obj1 obj2 dx dy distance
              * (1 - 1.8 * obj2.mass / (obj2.mass + obj1.mass))
      ∧ (velAlongNormal obj1 obj2 dx dy distance < 0 →
          (velAlongNormal (resolveCollision rnd k obj1 obj2 dx dy distance).1
              (resolveCollision rnd k obj1 obj2 dx dy distance).2.1 dx dy distance < 0
            ↔ obj2.mass < 1.25 * obj1.mass))) := by
  constructor
  · intro hd1 hd2
    have hv := velAlongNormal_snd_free rnd k obj1 obj2 dx dy distance hd1 hd2 hm1 hm2 hdist
      hnorm hvn
    refine ⟨resolveCollision_fst_of_dragging rnd k obj1 obj2 dx dy distance hd1,
      resolveCollision_snd_vel rnd k obj1 obj2 dx dy distance hd2 hvn, hv, fun hneg => ?_⟩
    rw [hv]
    exact still_approaching_iff _ _ _ hm1 hm2 hneg
  · intro hd1 hd2
    have hv := velAlongNormal_fst_free rnd k obj1 obj2 dx dy distance hd1 hd2 hm1 hm2 hdist
      hnorm hvn
    refine ⟨resolveCollision_snd_of_dragging rnd k obj1 obj2 dx dy distance hd2,
      resolveCollision_fst_vel rnd k obj1 obj2 dx dy distance hd1 hvn, hv, fun hneg => ?_⟩
    rw [hv]
    exact still_approaching_iff _ _ _ hm2 hm1 hneg

theorem resolveCollision_one_dragged_witness :
    ((resolveCollision rndQ 0 (held 100 100) (card 110 100 (-4) 4) (-10) 0 10).1 = held 100 100
      ∧ velAlongNormal (resolveCollision rndQ 0 (held 100 100) (card 110 100 (-4) 4) (-10) 0 10).1
            (resolveCollision rndQ 0 (held 100 100) (card 110 100 (-4) 4) (-10) 0 10).2.1
            (-10) 0 10
          = velAlongNormal (held 100 100) (card 110 100 (-4) 4) (-10) 0 10
              * (1 - 1.8 * (held 100 100).mass
                  / ((held 100 100).mass + (card 110 100 (-4) 4).mass))
      ∧ velAlongNormal (resolveCollision rndQ 0 (held 100 100) (card 110 100 (-4) 4)
            (-10) 0 10).1
          (resolveCollision rndQ 0 (held 100 100) (card 110 100 (-4) 4) (-10) 0 10).2.1
          (-10) 0 10 < 0)
    ∧ (resolveCollision rndQ 0 (card 110 100 (-4) 4) (held 100 100) 10 0 10).2.1
        = held 100 100 :=
  ⟨⟨((resolveCollision_one_dragged rndQ 0 (held 100 100) (card 110 100 (-4) 4) (-10) 0 10
        (by norm_num [held]) (by norm_num [card]) (by norm_num) (by norm_num)
        (by norm_num [velAlongNormal, held, card])).1 rfl rfl).1,
    ((resolveCollision_one_dragged rndQ 0 (held 100 100) (card 110 100 (-4) 4) (-10) 0 10
        (by norm_num [held]) (by norm_num [card]) (by norm_num) (by norm_num)
        (by norm_num [velAlongNormal, held, card])).1 rfl rfl).2.2.1,
    (((resolveCollision_one_dragged rndQ 0 (held 100 100) (card 110 100 (-4) 4) (-10) 0 10
        (by norm_num [held]) (by norm_num [card]) (by norm_num) (by norm_num)
        (by norm_num [velAlongNormal, held, card])).1 rfl rfl).2.2.2
        (by norm_num [velAlongNormal, held, card])).2 (by norm_num [held, card])⟩,
   ((resolveCollision_one_dragged rndQ 0 (card 110 100 (-4) 4) (held 100 100) 10 0 10
        (by norm_num [card]) (by norm_num [held]) (by norm_num) (by norm_num)
        (by norm_num [velAlongNormal, held, card])).2 rfl rfl).1⟩

end Proofs

end Antigravity
